import Mathlib

/-!
Verification development for the deltaagent trading backend.

This file shallowly embeds the risk-governed execution core of the backend
(risk governor, risk-parameter merging, strategy-template resolver,
emergency-halt gated execution pipelines, fill ingestion and slippage, and
the auto-remediation policy) as executable Lean definitions, and proves or
refutes the specification claims about them.

Modelling conventions:
- Python floats are modelled as exact rationals (`ℚ`); float formatting in
  diagnostic strings is modelled by an explicit rendering function whose
  exact text no theorem depends on.
- Python code that can raise is modelled with `Except`/`Option` results.
- Dynamic Python values (tenant config dicts, trade payloads, broker
  responses) are modelled by the inductive `PyVal`; dicts are association
  lists with insertion-order update semantics.
- Wall-clock datetimes are modelled as rational UTC epoch seconds, and
  calendar dates as a `PDate` structure with civil-day arithmetic.
-/

set_option maxHeartbeats 1000000

/-- A dynamically typed Python value, as found in tenant config dicts,
trade payload dicts and broker response dicts. -/
inductive PyVal where
  | pnone
  | pbool (b : Bool)
  | pint (i : Int)
  | pfloat (q : ℚ)
  | pstr (s : String)
  | pdt (epochSeconds : ℚ)
  | plist (xs : List PyVal)
  | pdict (xs : List (String × PyVal))
deriving Repr

/-- Structural decidable equality for `PyVal` (Python `==` on these values is
finer-grained — e.g. `1 == 1.0` — but no theorem below relies on
cross-constructor equality). -/
def PyVal.beq : PyVal → PyVal → Bool
  | .pnone, .pnone => true
  | .pbool a, .pbool b => a == b
  | .pint a, .pint b => a == b
  | .pfloat a, .pfloat b => a == b
  | .pstr a, .pstr b => a == b
  | .pdt a, .pdt b => a == b
  | .plist a, .plist b => listBeq a b
  | .pdict a, .pdict b => dictBeq a b
  | _, _ => false
where
  listBeq : List PyVal → List PyVal → Bool
    | [], [] => true
    | x :: xs, y :: ys => PyVal.beq x y && listBeq xs ys
    | _, _ => false
  dictBeq : List (String × PyVal) → List (String × PyVal) → Bool
    | [], [] => true
    | (k, x) :: xs, (l, y) :: ys => k == l && PyVal.beq x y && dictBeq xs ys
    | _, _ => false

instance : BEq PyVal := ⟨PyVal.beq⟩

/-- Python truthiness (`bool(v)`). -/
def PyVal.truthy : PyVal → Bool
  | .pnone => false
  | .pbool b => b
  | .pint i => i != 0
  | .pfloat q => q != 0
  | .pstr s => s != ""
  | .pdt _ => true
  | .plist xs => !xs.isEmpty
  | .pdict xs => !xs.isEmpty

/-- `d.get(k)` on a Python dict: value of the first (only) binding of `k`. -/
def dictGet (d : List (String × PyVal)) (k : String) : Option PyVal :=
  (d.find? (fun p => p.1 == k)).map (·.2)

/-- `d.get(k, default)`. -/
def dictGetD (d : List (String × PyVal)) (k : String) (v : PyVal) : PyVal :=
  (dictGet d k).getD v

/-- `d[k] = v` on a Python dict: replace the first binding of `k` in place,
or append a new binding. -/
def dictSet (d : List (String × PyVal)) (k : String) (v : PyVal) : List (String × PyVal) :=
  match d with
  | [] => [(k, v)]
  | (k0, v0) :: rest => if k0 = k then (k, v) :: rest else (k0, v0) :: dictSet rest k v

/-- Truncation toward zero, the behaviour of Python `int()` on a float. -/
def qTrunc (q : ℚ) : Int :=
  if 0 ≤ q then ⌊q⌋ else ⌈q⌉

/-- Digits of a natural number string. -/
def digitsToNat (cs : List Char) : Nat :=
  cs.foldl (fun a c => a * 10 + (c.toNat - 48)) 0

/-- Python whitespace for `str.strip()`. -/
def pyIsSpace (c : Char) : Bool :=
  c = ' ' || c = '\t' || c = '\n' || c = '\r' || c = '\x0b' || c = '\x0c'

/-- Python `s.strip()`, written on character lists so that it evaluates by
kernel reduction. -/
def strTrim (s : String) : String :=
  ⟨((s.data.dropWhile pyIsSpace).reverse.dropWhile pyIsSpace).reverse⟩

/-- Parse a decimal string as Python `int(str)` does (optional surrounding
whitespace, optional sign, digits). Underscore separators are not modelled. -/
def pyIntOfString (s : String) : Option Int :=
  let cs := (strTrim s).toList
  let (sign, ds) : Int × List Char :=
    match cs with
    | '-' :: rest => (-1, rest)
    | '+' :: rest => (1, rest)
    | _ => (1, cs)
  if ds ≠ [] ∧ ds.all Char.isDigit then some (sign * (digitsToNat ds : Int)) else none

/-- Parse a decimal string as Python `float(str)` does, restricted to finite
decimal/scientific literals (`inf`/`nan` literals are treated as failures,
since `ℚ` cannot represent them). -/
def pyFloatOfString (s : String) : Option ℚ :=
  let cs := (strTrim s).toList
  let (sign, rest0) : ℚ × List Char :=
    match cs with
    | '-' :: rest => (-1, rest)
    | '+' :: rest => (1, rest)
    | _ => (1, cs)
  let intPart := rest0.takeWhile Char.isDigit
  let rest1 := rest0.drop intPart.length
  let (fracPart, rest2) : List Char × List Char :=
    match rest1 with
    | '.' :: r => (r.takeWhile Char.isDigit, r.drop (r.takeWhile Char.isDigit).length)
    | _ => ([], rest1)
  if intPart = [] ∧ fracPart = [] then none
  else
    let mant : ℚ := (digitsToNat intPart : ℚ) +
      (digitsToNat fracPart : ℚ) / ((10 : ℚ) ^ fracPart.length)
    match rest2 with
    | [] => some (sign * mant)
    | e :: r =>
      if e = 'e' ∨ e = 'E' then
        let (esign, eds) : Int × List Char :=
          match r with
          | '-' :: rr => (-1, rr)
          | '+' :: rr => (1, rr)
          | _ => (1, r)
        if eds ≠ [] ∧ eds.all Char.isDigit then
          some (sign * mant * (10 : ℚ) ^ (esign * (digitsToNat eds : Int)))
        else none
      else none

/-- Python `float(v)`: `none` models a raised `TypeError`/`ValueError`. -/
def pyFloat : PyVal → Option ℚ
  | .pbool b => some (if b then 1 else 0)
  | .pint i => some (i : ℚ)
  | .pfloat q => some q
  | .pstr s => pyFloatOfString s
  | _ => none

/-- Python `int(v)`: `none` models a raised `TypeError`/`ValueError`. -/
def pyInt : PyVal → Option Int
  | .pbool b => some (if b then 1 else 0)
  | .pint i => some i
  | .pfloat q => some (qTrunc q)
  | .pstr s => pyIntOfString s
  | _ => none

/-- Python `str(v)`. Float rendering is an explicit decimal/fraction
rendering rather than the exact `repr` of a binary float; no theorem
depends on the rendered text of a float. -/
def formatQ (q : ℚ) : String :=
  if q.den = 1 then toString q.num ++ ".0"
  else toString q.num ++ "/" ++ toString q.den

def pyStr : PyVal → String
  | .pnone => "None"
  | .pbool b => if b then "True" else "False"
  | .pint i => toString i
  | .pfloat q => formatQ q
  | .pstr s => s
  | .pdt t => "datetime(" ++ formatQ t ++ ")"
  | .plist _ => "[...]"
  | .pdict _ => "{...}"

/-- ASCII uppercasing of one character (Python `str.upper` restricted to the
ASCII identifiers this backend compares). -/
def charUpper (c : Char) : Char :=
  if 'a' ≤ c ∧ c ≤ 'z' then Char.ofNat (c.toNat - 32) else c

/-- ASCII lowercasing of one character. -/
def charLower (c : Char) : Char :=
  if 'A' ≤ c ∧ c ≤ 'Z' then Char.ofNat (c.toNat + 32) else c

/-- Python `s.upper()` (ASCII). -/
def strUpper (s : String) : String := ⟨s.data.map charUpper⟩

/-- Python `s.lower()` (ASCII). -/
def strLower (s : String) : String := ⟨s.data.map charLower⟩

/-- `str.strip()` producing `None` for blank input, as used throughout the
backend (`_normalize_optional_text`). -/
def normalizeOptionalText : Option String → Option String
  | none => none
  | some s => let t := strTrim s; if t = "" then none else some t

-- ============================================================
-- backend/execution/fills.py
-- ============================================================

/-- `_safe_float` from `backend/execution/fills.py`: best-effort float
conversion falling back to `0.0`. -/
def safe_float (v : PyVal) : ℚ :=
  match v with
  | .pnone => 0
  | _ => (pyFloat v).getD 0

/-- `compute_slippage_bps` from `backend/execution/fills.py`. -/
def compute_slippage_bps (action : String) (fill_price : ℚ) (expected_price : Option ℚ) :
    Option ℚ :=
  match expected_price with
  | none => none
  | some ep =>
    if ep ≤ 0 then none
    else
      let raw_bps := ((fill_price - ep) / ep) * 10000
      if strUpper action = "SELL" then some (-raw_bps) else some raw_bps

/-- `estimate_expected_price` from `backend/execution/fills.py`. -/
def estimate_expected_price (action : String) (bid ask : ℚ) (limit_price : Option ℚ)
    (fallback_price : PyVal) : Option ℚ :=
  match limit_price with
  | some lp =>
    if 0 < lp then some lp
    else estimateRest action bid ask fallback_price
  | none => estimateRest action bid ask fallback_price
where
  estimateRest (action : String) (bid ask : ℚ) (fallback_price : PyVal) : Option ℚ :=
    if 0 < bid ∧ 0 < ask then some ((bid + ask) / 2)
    else if strUpper action = "BUY" ∧ 0 < ask then some ask
    else if strUpper action = "SELL" ∧ 0 < bid then some bid
    else
      let fb := safe_float fallback_price
      if 0 < fb then some fb else none

-- ============================================================
-- Claim C3: slippage formula, sign convention, and null propagation
-- ============================================================

/-- C3. For every fill with a positive expected reference price, slippage in
basis points equals `((fill − expected)/expected) × 10000`, negated exactly
when the action is SELL; BUY at fill 10.10 vs expected 10.00 gives +100 bps
and SELL at the same prices gives −100 bps; and whenever the expected-price
resolution chain (limit price → mid → one-sided quote matching the side →
caller fallback) resolves nothing, the estimate is `none` and the slippage
is `none` — not zero. -/
theorem slippage_bps_spec :
    (∀ (action : String) (fill ep : ℚ), 0 < ep →
      compute_slippage_bps action fill (some ep) =
        some (if strUpper action = "SELL"
              then -(((fill - ep) / ep) * 10000)
              else ((fill - ep) / ep) * 10000)) ∧
    compute_slippage_bps "BUY" (101/10) (some 10) = some 100 ∧
    compute_slippage_bps "SELL" (101/10) (some 10) = some (-100) ∧
    (∀ (action : String) (bid ask : ℚ) (limit : Option ℚ) (fb : PyVal),
      estimate_expected_price action bid ask limit fb = none ↔
        (∀ lp, limit = some lp → ¬ 0 < lp) ∧
        ¬ (0 < bid ∧ 0 < ask) ∧
        ¬ (strUpper action = "BUY" ∧ 0 < ask) ∧
        ¬ (strUpper action = "SELL" ∧ 0 < bid) ∧
        ¬ 0 < safe_float fb) ∧
    (∀ (action : String) (fill : ℚ),
      compute_slippage_bps action fill none = none) := by
  refine ⟨?_, ?_, ?_, ?_, ?_⟩
  · intro action fill ep hep
    simp only [compute_slippage_bps, if_neg (not_le.mpr hep)]
    split <;> simp_all
  · norm_num [compute_slippage_bps]
    decide
  · norm_num [compute_slippage_bps]
    decide
  · intro action bid ask limit fb
    cases limit with
    | none =>
      simp only [estimate_expected_price, estimate_expected_price.estimateRest]
      constructor
      · intro h
        split at h
        · exact absurd h (by simp)
        · split at h
          · exact absurd h (by simp)
          · split at h
            · exact absurd h (by simp)
            · split at h
              · exact absurd h (by simp)
              · refine ⟨by simp, by assumption, by assumption, by assumption, by assumption⟩
      · rintro ⟨-, h1, h2, h3, h4⟩
        rw [if_neg h1, if_neg h2, if_neg h3, if_neg h4]
    | some lp =>
      simp only [estimate_expected_price, estimate_expected_price.estimateRest]
      by_cases hlp : 0 < lp
      · rw [if_pos hlp]
        constructor
        · intro h; exact absurd h (by simp)
        · rintro ⟨hl, -⟩; exact absurd hlp (hl lp rfl)
      · rw [if_neg hlp]
        constructor
        · intro h
          split at h
          · exact absurd h (by simp)
          · split at h
            · exact absurd h (by simp)
            · split at h
              · exact absurd h (by simp)
              · split at h
                · exact absurd h (by simp)
                · refine ⟨?_, by assumption, by assumption, by assumption, by assumption⟩
                  intro lp2 hlp2
                  cases hlp2; exact hlp
        · rintro ⟨-, h1, h2, h3, h4⟩
          rw [if_neg h1, if_neg h2, if_neg h3, if_neg h4]
  · intro action fill
    rfl

/-- Closed witness for `slippage_bps_spec` at concrete inputs. -/
theorem slippage_bps_spec_witness :
    compute_slippage_bps "BUY" (101/10) (some 10) = some 100 ∧
    compute_slippage_bps "SELL" (404/10) (some 40) = some (-100) ∧
    estimate_expected_price "BUY" 0 0 none .pnone = none := by
  refine ⟨slippage_bps_spec.2.1, ?_, ?_⟩
  · have h := slippage_bps_spec.1 "SELL" (404/10) 40 (by norm_num)
    rw [h, if_pos (by decide : strUpper "SELL" = "SELL")]
    norm_num
  · rw [(slippage_bps_spec.2.2.2.1 "BUY" 0 0 none .pnone).mpr]
    refine ⟨by simp, by norm_num, by norm_num, by norm_num, ?_⟩
    norm_num [safe_float]

-- ============================================================
-- backend/agent/risk.py
-- ============================================================

/-- A raised Python exception: either a `RiskViolation{rule, reason}` or a
plain `ValueError`/`TypeError`/`KeyError` carrying a message. -/
inductive PyErr where
  | riskViolation (rule : String) (reason : String)
  | valError (msg : String)
  | brokerOrder (msg : String)
  | keyError (key : String)
deriving Repr, DecidableEq

deriving instance DecidableEq for Except

/-- `RiskParameters` dataclass defaults from `backend/agent/risk.py`. -/
structure RiskParameters where
  delta_threshold : ℚ := 1/5
  max_size : Int := 10
  max_loss : ℚ := 5000
  max_open_positions : Int := 20
deriving Repr, DecidableEq

/-- `RiskParameters.from_dict`: builds a snapshot from a tenant dict.  The
`float()`/`int()` conversions are bare in the source, so a present value of
inconvertible type raises (modelled as `.error`). -/
def RiskParameters.from_dict (payload : Option (List (String × PyVal))) :
    Except PyErr RiskParameters :=
  match payload with
  | none => .ok {}
  | some d =>
    if d.isEmpty then .ok {}
    else
      match pyFloat (dictGetD d "delta_threshold" (.pfloat (1/5))) with
      | none => .error (.valError "could not convert delta_threshold to float")
      | some dt =>
        match pyInt (dictGetD d "max_size" (.pint 10)) with
        | none => .error (.valError "could not convert max_size to int")
        | some ms =>
          match pyFloat (dictGetD d "max_loss" (.pfloat 5000)) with
          | none => .error (.valError "could not convert max_loss to float")
          | some ml =>
            match pyInt (dictGetD d "max_open_positions" (.pint 20)) with
            | none => .error (.valError "could not convert max_open_positions to int")
            | some mop =>
              .ok { delta_threshold := dt, max_size := ms, max_loss := ml,
                    max_open_positions := mop }

/-- The `RiskGovernor._loss_streak` per-client P&L history the governor
instance retains between calls. -/
abbrev GovernorState := List (String × List ℚ)

/-- Per-client loss streak (`self._loss_streak.get(client_id, [])`). -/
def govGet (st : GovernorState) (client : String) : List ℚ :=
  match List.find? (fun p => p.1 == client) st with
  | some p => p.2
  | none => []

/-- Update one client's loss streak in the governor state. -/
def govSet (st : GovernorState) (client : String) (arr : List ℚ) : GovernorState :=
  match st with
  | [] => [(client, arr)]
  | (c, a) :: rest =>
    if c = client then (client, arr) :: rest else (c, a) :: govSet rest client arr

/-- `RiskGovernor.register_trade_pnl`: append the P&L and trim the history
to the last 10 entries. -/
def register_trade_pnl (st : GovernorState) (client : String) (pnl : ℚ) : GovernorState :=
  let arr := govGet st client ++ [pnl]
  let arr := if arr.length > 10 then arr.drop (arr.length - 10) else arr
  govSet st client arr

/-- `RiskGovernor._is_market_hours`: UTC windows `now >= 22:00 or now <=
21:00` (seconds of day). -/
def is_market_hours (nowSec : ℚ) : Bool :=
  decide (79200 ≤ nowSec) || decide (nowSec ≤ 75600)

/-- Python `abs()` on a rational, written with `if` so that it evaluates by
kernel reduction. -/
def pyAbs (q : ℚ) : ℚ := if q < 0 then -q else q

theorem pyAbs_eq_abs (q : ℚ) : pyAbs q = |q| := by
  unfold pyAbs
  rcases lt_or_ge q 0 with h | h
  · rw [if_pos h, abs_of_neg h]
  · rw [if_neg (not_lt.mpr h), abs_of_nonneg h]

/-- The spread ratio `(ask - bid) / mid` computed inside the SPREAD_LIMIT
rule (with the `if mid else 1.0` guard of the source). -/
def spread_rel (bid ask : ℚ) : ℚ :=
  let mid := (bid + ask) / 2
  if mid ≠ 0 then (ask - bid) / mid else 1

/-- The checks of `RiskGovernor.validate_order` that follow the
MAX_NET_DELTA rule, in source order. -/
def validate_order_rest (client_id : String) (order : List (String × PyVal))
    (daily_pnl : ℚ) (open_legs : Int) (bid ask : ℚ) (params : RiskParameters)
    (streak : GovernorState) (nowSec : ℚ) : Except PyErr Unit :=
  match pyInt (dictGetD order "qty" (.pint 0)) with
  | none => .error (.valError "could not convert qty to int")
  | some qty =>
    if qty > params.max_size then
      .error (.riskViolation "MAX_SINGLE_ORDER_SIZE"
        ("qty=" ++ toString qty ++ " max=" ++ toString params.max_size))
    else if daily_pnl ≤ -(pyAbs params.max_loss) then
      .error (.riskViolation "MAX_DAILY_LOSS"
        ("daily_pnl=" ++ formatQ daily_pnl ++ " max_loss=" ++ formatQ params.max_loss))
    else if open_legs ≥ params.max_open_positions then
      .error (.riskViolation "MAX_OPEN_POSITIONS"
        ("open_legs=" ++ toString open_legs ++ " max=" ++ toString params.max_open_positions))
    else if ¬ is_market_hours nowSec then
      .error (.riskViolation "MARKET_HOURS" "Order attempted outside configured market hours")
    else if 0 < bid ∧ 0 < ask ∧ spread_rel bid ask > 3/20 then
      .error (.riskViolation "SPREAD_LIMIT"
        ("spread_ratio=" ++ formatQ (spread_rel bid ask) ++ " > 0.15"))
    else
      let losses := govGet streak client_id
      if losses.length ≥ 3 ∧
          (losses.drop (losses.length - 3)).all (fun l => decide (l ≤ -500)) then
        .error (.riskViolation "CIRCUIT_BREAKER" "3 consecutive losses > $500 triggered halt")
      else .ok ()

/-- `RiskGovernor.validate_order` from `backend/agent/risk.py`.  The wall
clock read (`datetime.now(UTC).time()`) is passed in as `nowSec`; the
governor's retained `_loss_streak` state is passed as `streak`. -/
def validate_order (client_id : String) (order : List (String × PyVal)) (net_delta : ℚ)
    (projected_delta : Option ℚ) (daily_pnl : ℚ) (open_legs : Int) (bid ask : ℚ)
    (params : RiskParameters) (streak : GovernorState) (nowSec : ℚ) : Except PyErr Unit :=
  let effective_delta := projected_delta.getD net_delta
  if pyAbs effective_delta > params.delta_threshold ∧
      (pyAbs net_delta ≤ params.delta_threshold ∨ pyAbs net_delta ≤ pyAbs effective_delta) then
    .error (.riskViolation "MAX_NET_DELTA"
      ("net_delta=" ++ formatQ net_delta ++ " projected_delta=" ++ formatQ effective_delta
        ++ " threshold=" ++ formatQ params.delta_threshold))
  else
    validate_order_rest client_id order daily_pnl open_legs bid ask params streak nowSec

/-- No rule after the first can raise `MAX_NET_DELTA`. -/
theorem validate_order_rest_ne_max_net_delta (client_id : String)
    (order : List (String × PyVal)) (daily_pnl : ℚ) (open_legs : Int) (bid ask : ℚ)
    (params : RiskParameters) (streak : GovernorState) (nowSec : ℚ) (reason : String) :
    validate_order_rest client_id order daily_pnl open_legs bid ask params streak nowSec ≠
      .error (.riskViolation "MAX_NET_DELTA" reason) := by
  unfold validate_order_rest
  split
  · simp
  · split
    · simp
    · split
      · simp
      · split
        · simp
        · split
          · simp
          · split
            · simp
            · dsimp only
              split
              · simp
              · simp

-- ============================================================
-- Claim C4: MAX_NET_DELTA is the first rule and fires exactly as specified
-- ============================================================

/-- C4. With a projected delta supplied, `validate_order` raises
MAX_NET_DELTA — and, being evaluated before every other rule, does so
regardless of every other argument — exactly when `|projectedDelta|`
exceeds the delta threshold and the order is not strictly reducing an
already-breached delta, i.e. it rejects unless `|netDelta| > threshold`
already held and `|projectedDelta| < |netDelta|`. -/
theorem max_net_delta_first_rule (client_id : String) (order : List (String × PyVal))
    (net_delta pd : ℚ) (daily_pnl : ℚ) (open_legs : Int) (bid ask : ℚ)
    (params : RiskParameters) (streak : GovernorState) (nowSec : ℚ) :
    (∃ reason, validate_order client_id order net_delta (some pd) daily_pnl open_legs
        bid ask params streak nowSec = .error (.riskViolation "MAX_NET_DELTA" reason)) ↔
      (|pd| > params.delta_threshold ∧
        ¬ (|net_delta| > params.delta_threshold ∧ |pd| < |net_delta|)) := by
  have hcond : (|pd| > params.delta_threshold ∧
      (|net_delta| ≤ params.delta_threshold ∨ |net_delta| ≤ |pd|)) ↔
      (|pd| > params.delta_threshold ∧
        ¬ (|net_delta| > params.delta_threshold ∧ |pd| < |net_delta|)) := by
    constructor
    · rintro ⟨h1, h2⟩
      refine ⟨h1, ?_⟩
      rintro ⟨h3, h4⟩
      rcases h2 with h | h
      · exact absurd h3 (not_lt.mpr h)
      · exact absurd h4 (not_lt.mpr h)
    · rintro ⟨h1, h2⟩
      push_neg at h2
      refine ⟨h1, ?_⟩
      by_cases hn : |net_delta| ≤ params.delta_threshold
      · exact Or.inl hn
      · exact Or.inr (h2 (lt_of_not_le hn))
  constructor
  · rintro ⟨reason, h⟩
    unfold validate_order at h
    simp only [Option.getD_some, pyAbs_eq_abs] at h
    split at h
    · next hc => exact hcond.mp hc
    · next hc =>
      exact absurd h (validate_order_rest_ne_max_net_delta client_id order daily_pnl
        open_legs bid ask params streak nowSec reason)
  · intro hr
    have hc := hcond.mpr hr
    unfold validate_order
    simp only [Option.getD_some, pyAbs_eq_abs]
    rw [if_pos hc]
    exact ⟨_, rfl⟩

/-- Closed witness for `max_net_delta_first_rule`: a projected delta of 1.0
against threshold 0.2 (with every other rule simultaneously violable or
passing) yields exactly the MAX_NET_DELTA rejection. -/
theorem max_net_delta_first_rule_witness :
    ∃ reason, validate_order "client-1" [("qty", .pint 99)] 0 (some 1) 0 0 0 0
      {} [] 0 = .error (.riskViolation "MAX_NET_DELTA" reason) := by
  exact (max_net_delta_first_rule "client-1" [("qty", .pint 99)] 0 1 0 0 0 0 {} [] 0).mpr
    (by norm_num)

-- ============================================================
-- Claim C5: circuit breaker condition and governor-held history
-- ============================================================

/-- The governor state after three −600 P&Ls were registered for client
`"c"` through `register_trade_pnl`. -/
def lossStreak3 : GovernorState :=
  register_trade_pnl (register_trade_pnl (register_trade_pnl [] "c" (-600)) "c" (-600))
    "c" (-600)

/-- C5 counterexample. Two `validate_order` calls with identical
caller-supplied arguments differ in outcome depending only on the P&L
history the governor instance itself retained from earlier
`register_trade_pnl` calls: the recent-P&L window is not supplied by the
caller, and the governor does hold trade history between calls. -/
theorem circuit_breaker_statefulness_counterexample :
    validate_order "c" [] 0 none 0 0 0 0 {} lossStreak3 0 =
      .error (.riskViolation "CIRCUIT_BREAKER" "3 consecutive losses > $500 triggered halt") ∧
    validate_order "c" [] 0 none 0 0 0 0 {} [] 0 = .ok () := by
  constructor <;>
    norm_num [validate_order, validate_order_rest, pyAbs, is_market_hours, lossStreak3,
      register_trade_pnl, govGet, govSet, dictGetD, dictGet, pyInt, spread_rel]

/-- `govGet` after `govSet` on the same client. -/
theorem govGet_govSet (st : GovernorState) (c : String) (arr : List ℚ) :
    govGet (govSet st c arr) c = arr := by
  induction st with
  | nil => simp [govSet, govGet]
  | cons p rest ih =>
    obtain ⟨c0, a0⟩ := p
    by_cases h : c0 = c
    · subst h
      simp [govSet, govGet]
    · simp only [govSet, if_neg h, govGet, List.find?]
      rw [show (c0 == c) = false from beq_eq_false_iff_ne.mpr h]
      exact ih

/-- C5 (amended). When every rule before the circuit breaker passes,
`validate_order` raises CIRCUIT_BREAKER exactly when at least 3 trade P&Ls
have been recorded for the client *in the governor's own retained
per-client history* and the last 3 of them are each ≤ −500 (so two
qualifying losses never trip it); `register_trade_pnl` appends to that
retained history and trims it to the last 10 entries. -/
theorem circuit_breaker_amended (client_id : String) (order : List (String × PyVal))
    (net_delta : ℚ) (projected_delta : Option ℚ) (daily_pnl : ℚ) (open_legs : Int)
    (bid ask : ℚ) (params : RiskParameters) (streak : GovernorState) (nowSec : ℚ)
    (qty : Int)
    (hdelta : ¬ (pyAbs (projected_delta.getD net_delta) > params.delta_threshold ∧
      (pyAbs net_delta ≤ params.delta_threshold ∨
        pyAbs net_delta ≤ pyAbs (projected_delta.getD net_delta))))
    (hq : pyInt (dictGetD order "qty" (.pint 0)) = some qty)
    (hqty : ¬ qty > params.max_size)
    (hdaily : ¬ daily_pnl ≤ -(pyAbs params.max_loss))
    (hopen : ¬ open_legs ≥ params.max_open_positions)
    (hhours : is_market_hours nowSec = true)
    (hspread : ¬ (0 < bid ∧ 0 < ask ∧ spread_rel bid ask > 3/20)) :
    (validate_order client_id order net_delta projected_delta daily_pnl open_legs
        bid ask params streak nowSec =
      .error (.riskViolation "CIRCUIT_BREAKER" "3 consecutive losses > $500 triggered halt") ↔
      (3 ≤ (govGet streak client_id).length ∧
        ∀ l ∈ (govGet streak client_id).drop ((govGet streak client_id).length - 3),
          l ≤ -500)) ∧
    (∀ (st : GovernorState) (c : String) (pnl : ℚ),
      govGet (register_trade_pnl st c pnl) c =
        if (govGet st c ++ [pnl]).length > 10 then
          (govGet st c ++ [pnl]).drop ((govGet st c ++ [pnl]).length - 10)
        else govGet st c ++ [pnl]) := by
  constructor
  · unfold validate_order
    rw [if_neg hdelta]
    unfold validate_order_rest
    simp only [hq]
    rw [if_neg hqty, if_neg hdaily, if_neg hopen,
      if_neg (not_not_intro hhours), if_neg hspread]
    split
    · next hcb =>
      obtain ⟨h1, h2⟩ := hcb
      constructor
      · intro _
        exact ⟨h1, fun l hl => of_decide_eq_true (List.all_eq_true.mp h2 l hl)⟩
      · intro _
        rfl
    · next hcb =>
      constructor
      · intro h
        exact absurd h (by simp)
      · rintro ⟨h1, h2⟩
        exact absurd ⟨h1, List.all_eq_true.mpr (fun l hl => decide_eq_true (h2 l hl))⟩ hcb
  · intro st c pnl
    unfold register_trade_pnl
    dsimp only
    rw [govGet_govSet]

/-- Closed witness for `circuit_breaker_amended`: with three −600 P&Ls
retained for the client and all earlier rules passing, the call raises
CIRCUIT_BREAKER. -/
theorem circuit_breaker_amended_witness :
    validate_order "c" [] 0 none 0 0 0 0 {} lossStreak3 0 =
      .error (.riskViolation "CIRCUIT_BREAKER" "3 consecutive losses > $500 triggered halt") := by
  refine ((circuit_breaker_amended "c" [] 0 none 0 0 0 0 {} lossStreak3 0 0
    ?_ ?_ ?_ ?_ ?_ ?_ ?_).1).mpr ?_
  · norm_num [pyAbs]
  · norm_num [pyInt, dictGetD, dictGet]
  · norm_num
  · norm_num [pyAbs]
  · norm_num
  · simp [is_market_hours]
  · norm_num
  · refine ⟨by decide, ?_⟩
    decide

-- ============================================================
-- backend/risk_defaults.py
-- ============================================================

def AUTO_REMEDIATION_ACTIONS : List String :=
  ["none", "apply_conservative", "pause_autonomous"]

/-- `CONSERVATIVE_RISK_PRESET` from `backend/risk_defaults.py`. -/
def CONSERVATIVE_RISK_PRESET : List (String × PyVal) :=
  [("delta_threshold", .pfloat (1/10)),
   ("max_size", .pint 5),
   ("max_loss", .pfloat 2500),
   ("max_open_positions", .pint 10),
   ("execution_alert_slippage_warn_bps", .pfloat 10),
   ("execution_alert_slippage_critical_bps", .pfloat 20),
   ("execution_alert_latency_warn_ms", .pint 2000),
   ("execution_alert_latency_critical_ms", .pint 5000),
   ("execution_alert_fill_coverage_warn_pct", .pfloat 85),
   ("execution_alert_fill_coverage_critical_pct", .pfloat 70)]

/-- `DEFAULT_RISK_PARAMETERS` from `backend/risk_defaults.py`. -/
def DEFAULT_RISK_PARAMETERS : List (String × PyVal) :=
  [("delta_threshold", .pfloat (1/5)),
   ("max_size", .pint 10),
   ("max_loss", .pfloat 5000),
   ("max_open_positions", .pint 20),
   ("execution_alert_slippage_warn_bps", .pfloat 15),
   ("execution_alert_slippage_critical_bps", .pfloat 30),
   ("execution_alert_latency_warn_ms", .pint 3000),
   ("execution_alert_latency_critical_ms", .pint 8000),
   ("execution_alert_fill_coverage_warn_pct", .pfloat 75),
   ("execution_alert_fill_coverage_critical_pct", .pfloat 50),
   ("auto_remediation_enabled", .pbool false),
   ("auto_remediation_warning_action", .pstr "none"),
   ("auto_remediation_critical_action", .pstr "pause_autonomous"),
   ("auto_remediation_cooldown_minutes", .pint 20),
   ("auto_remediation_max_actions_per_hour", .pint 2),
   ("auto_remediation_last_outcome", .pstr "idle"),
   ("auto_remediation_last_reason", .pstr ""),
   ("auto_remediation_last_action", .pnone),
   ("auto_remediation_last_action_at", .pnone),
   ("auto_remediation_actions_last_hour", .pint 0),
   ("auto_remediation_window_started_at", .pnone),
   ("auto_remediation_last_alert_id", .pnone),
   ("auto_remediation_last_alert_severity", .pnone)]

def int_fields : List String :=
  ["max_size", "max_open_positions", "execution_alert_latency_warn_ms",
   "execution_alert_latency_critical_ms", "auto_remediation_cooldown_minutes",
   "auto_remediation_max_actions_per_hour", "auto_remediation_actions_last_hour"]

def float_fields : List String :=
  ["delta_threshold", "max_loss", "execution_alert_slippage_warn_bps",
   "execution_alert_slippage_critical_bps", "execution_alert_fill_coverage_warn_pct",
   "execution_alert_fill_coverage_critical_pct"]

def bool_fields : List String := ["auto_remediation_enabled"]

def action_fields : List String :=
  ["auto_remediation_warning_action", "auto_remediation_critical_action",
   "auto_remediation_last_action"]

def text_fields : List String :=
  ["auto_remediation_last_outcome", "auto_remediation_last_reason",
   "auto_remediation_last_action_at", "auto_remediation_window_started_at",
   "auto_remediation_last_alert_id", "auto_remediation_last_alert_severity"]

/-- `_coerce_int`: swallow conversion failures, fall back. -/
def coerce_int (v : PyVal) (fb : Int) : Int := (pyInt v).getD fb

/-- `_coerce_float`: swallow conversion failures, fall back. -/
def coerce_float (v : PyVal) (fb : ℚ) : ℚ := (pyFloat v).getD fb

/-- `_coerce_bool` from `backend/risk_defaults.py`. -/
def coerce_bool (v : PyVal) (fb : Bool) : Bool :=
  match v with
  | .pbool b => b
  | .pstr s =>
    let n := strLower (strTrim s)
    if n ∈ ["1", "true", "yes", "on"] then true
    else if n ∈ ["0", "false", "no", "off"] then false
    else fb
  | .pint i => i != 0
  | .pfloat q => q != 0
  | _ => fb

/-- `_normalize_optional_text` applied to an arbitrary Python value. -/
def normalize_optional_text (v : PyVal) : Option String :=
  match v with
  | .pnone => none
  | _ => let t := strTrim (pyStr v); if t = "" then none else some t

/-- `_coerce_action` from `backend/risk_defaults.py`. -/
def coerce_action (v : PyVal) (fb : String) : String :=
  match normalize_optional_text v with
  | none => fb
  | some n => if n ∈ AUTO_REMEDIATION_ACTIONS then n else fb

/-- One iteration of the `for key, value in raw.items()` loop of
`merge_risk_parameters`.  The fallback conversions (`int(merged[key])`,
`float(merged[key])`) sit outside any `try`, so they are modelled as
fallible. -/
def merge_item (merged : List (String × PyVal)) (k : String) (v : PyVal) :
    Except PyErr (List (String × PyVal)) :=
  if k ∈ int_fields then
    match dictGet merged k with
    | none => .error (.valError ("KeyError: " ++ k))
    | some cur =>
      match pyInt cur with
      | none => .error (.valError ("int() failed on current value of " ++ k))
      | some fb => .ok (dictSet merged k (.pint (coerce_int v fb)))
  else if k ∈ float_fields then
    match dictGet merged k with
    | none => .error (.valError ("KeyError: " ++ k))
    | some cur =>
      match pyFloat cur with
      | none => .error (.valError ("float() failed on current value of " ++ k))
      | some fb => .ok (dictSet merged k (.pfloat (coerce_float v fb)))
  else if k ∈ bool_fields then
    match dictGet merged k with
    | none => .error (.valError ("KeyError: " ++ k))
    | some cur => .ok (dictSet merged k (.pbool (coerce_bool v cur.truthy)))
  else if k ∈ action_fields then
    match dictGet merged k with
    | none => .error (.valError ("KeyError: " ++ k))
    | some cur =>
      let fb := match cur with | .pnone => "none" | c => pyStr c
      .ok (dictSet merged k (.pstr (coerce_action v fb)))
  else if k ∈ text_fields then
    .ok (dictSet merged k
      (match normalize_optional_text v with | none => .pnone | some s => .pstr s))
  else .ok (dictSet merged k v)

def merge_items : List (String × PyVal) → List (String × PyVal) →
    Except PyErr (List (String × PyVal))
  | [], merged => .ok merged
  | (k, v) :: rest, merged =>
    match merge_item merged k v with
    | .error e => .error e
    | .ok m2 => merge_items rest m2

/-- `merge_risk_parameters` from `backend/risk_defaults.py`. -/
def merge_risk_parameters (raw : Option (List (String × PyVal))) :
    Except PyErr (List (String × PyVal)) :=
  match raw with
  | none => .ok DEFAULT_RISK_PARAMETERS
  | some r => merge_items r DEFAULT_RISK_PARAMETERS

def optIsPInt : Option PyVal → Bool
  | some (.pint _) => true
  | _ => false

def optIsPFloat : Option PyVal → Bool
  | some (.pfloat _) => true
  | _ => false

/-- The typing discipline `merge_risk_parameters` maintains on the merged
dict: every typed default key stays present, int keys hold ints, float keys
hold floats. -/
@[reducible] def MergedWellTyped (merged : List (String × PyVal)) : Prop :=
  (∀ k ∈ int_fields, optIsPInt (dictGet merged k) = true) ∧
  (∀ k ∈ float_fields, optIsPFloat (dictGet merged k) = true) ∧
  (∀ k ∈ bool_fields, (dictGet merged k).isSome = true) ∧
  (∀ k ∈ action_fields, (dictGet merged k).isSome = true)

theorem dictGet_dictSet_self (d : List (String × PyVal)) (k : String) (v : PyVal) :
    dictGet (dictSet d k v) k = some v := by
  induction d with
  | nil => simp [dictSet, dictGet]
  | cons p rest ih =>
    obtain ⟨k0, v0⟩ := p
    by_cases h : k0 = k
    · subst h
      simp [dictSet, dictGet]
    · simp only [dictSet, if_neg h, dictGet, List.find?]
      rw [show (k0 == k) = false from beq_eq_false_iff_ne.mpr h]
      exact ih

theorem dictGet_dictSet_ne (d : List (String × PyVal)) (k k2 : String) (v : PyVal)
    (h : k2 ≠ k) : dictGet (dictSet d k v) k2 = dictGet d k2 := by
  induction d with
  | nil =>
    simp only [dictSet, dictGet, List.find?]
    rw [show (k == k2) = false from beq_eq_false_iff_ne.mpr (Ne.symm h)]
  | cons p rest ih =>
    obtain ⟨k0, v0⟩ := p
    by_cases hk : k0 = k
    · subst hk
      simp only [dictSet, if_pos rfl, dictGet, List.find?]
      rw [show (k0 == k2) = false from beq_eq_false_iff_ne.mpr (fun hh => h (hh ▸ rfl))]
    · simp only [dictSet, if_neg hk, dictGet, List.find?]
      cases hb : (k0 == k2) with
      | true => rfl
      | false => exact ih

theorem optIsPInt_iff (o : Option PyVal) : optIsPInt o = true ↔ ∃ i, o = some (.pint i) := by
  cases o with
  | none => simp [optIsPInt]
  | some x => cases x <;> simp [optIsPInt]

theorem optIsPFloat_iff (o : Option PyVal) :
    optIsPFloat o = true ↔ ∃ q, o = some (.pfloat q) := by
  cases o with
  | none => simp [optIsPFloat]
  | some x => cases x <;> simp [optIsPFloat]

theorem MergedWellTyped_dictSet (merged : List (String × PyVal)) (k : String) (v : PyVal)
    (hwt : MergedWellTyped merged)
    (hvi : k ∈ int_fields → ∃ i, v = .pint i)
    (hvf : k ∈ float_fields → ∃ q, v = .pfloat q) :
    MergedWellTyped (dictSet merged k v) := by
  obtain ⟨hint, hfloat, hbool, haction⟩ := hwt
  refine ⟨?_, ?_, ?_, ?_⟩ <;> intro k2 hk2
  · by_cases he : k2 = k
    · subst he
      obtain ⟨i, hi⟩ := hvi hk2
      rw [dictGet_dictSet_self, hi]
      rfl
    · rw [dictGet_dictSet_ne _ _ _ _ he]
      exact hint k2 hk2
  · by_cases he : k2 = k
    · subst he
      obtain ⟨q, hq⟩ := hvf hk2
      rw [dictGet_dictSet_self, hq]
      rfl
    · rw [dictGet_dictSet_ne _ _ _ _ he]
      exact hfloat k2 hk2
  · by_cases he : k2 = k
    · subst he
      rw [dictGet_dictSet_self]
      rfl
    · rw [dictGet_dictSet_ne _ _ _ _ he]
      exact hbool k2 hk2
  · by_cases he : k2 = k
    · subst he
      rw [dictGet_dictSet_self]
      rfl
    · rw [dictGet_dictSet_ne _ _ _ _ he]
      exact haction k2 hk2

theorem merge_item_ok (merged : List (String × PyVal)) (k : String) (v : PyVal)
    (hwt : MergedWellTyped merged) :
    ∃ m2, merge_item merged k v = .ok m2 ∧ MergedWellTyped m2 ∧
      (∀ k2, k2 ≠ k → dictGet m2 k2 = dictGet merged k2) := by
  have hdisj : ∀ k0 ∈ int_fields, k0 ∉ float_fields := by decide
  obtain ⟨hint, hfloat, hbool, haction⟩ := hwt
  unfold merge_item
  by_cases h1 : k ∈ int_fields
  · rw [if_pos h1]
    obtain ⟨i, hi⟩ := (optIsPInt_iff _).mp (hint k h1)
    rw [hi]
    refine ⟨_, rfl, ?_, ?_⟩
    · exact MergedWellTyped_dictSet merged k _ ⟨hint, hfloat, hbool, haction⟩
        (fun _ => ⟨_, rfl⟩) (fun hf => absurd hf (hdisj k h1))
    · intro k2 hne
      exact dictGet_dictSet_ne _ _ _ _ hne
  · rw [if_neg h1]
    by_cases h2 : k ∈ float_fields
    · rw [if_pos h2]
      obtain ⟨q, hq⟩ := (optIsPFloat_iff _).mp (hfloat k h2)
      rw [hq]
      refine ⟨_, rfl, ?_, ?_⟩
      · exact MergedWellTyped_dictSet merged k _ ⟨hint, hfloat, hbool, haction⟩
          (fun hf => absurd hf h1) (fun _ => ⟨_, rfl⟩)
      · intro k2 hne
        exact dictGet_dictSet_ne _ _ _ _ hne
    · rw [if_neg h2]
      by_cases h3 : k ∈ bool_fields
      · rw [if_pos h3]
        obtain ⟨cur, hcur⟩ := Option.isSome_iff_exists.mp (hbool k h3)
        rw [hcur]
        refine ⟨_, rfl, ?_, ?_⟩
        · exact MergedWellTyped_dictSet merged k _ ⟨hint, hfloat, hbool, haction⟩
            (fun hf => absurd hf h1) (fun hf => absurd hf h2)
        · intro k2 hne
          exact dictGet_dictSet_ne _ _ _ _ hne
      · rw [if_neg h3]
        by_cases h4 : k ∈ action_fields
        · rw [if_pos h4]
          obtain ⟨cur, hcur⟩ := Option.isSome_iff_exists.mp (haction k h4)
          rw [hcur]
          refine ⟨_, rfl, ?_, ?_⟩
          · exact MergedWellTyped_dictSet merged k _ ⟨hint, hfloat, hbool, haction⟩
              (fun hf => absurd hf h1) (fun hf => absurd hf h2)
          · intro k2 hne
            exact dictGet_dictSet_ne _ _ _ _ hne
        · rw [if_neg h4]
          by_cases h5 : k ∈ text_fields
          · rw [if_pos h5]
            refine ⟨_, rfl, ?_, ?_⟩
            · exact MergedWellTyped_dictSet merged k _ ⟨hint, hfloat, hbool, haction⟩
                (fun hf => absurd hf h1) (fun hf => absurd hf h2)
            · intro k2 hne
              exact dictGet_dictSet_ne _ _ _ _ hne
          · rw [if_neg h5]
            refine ⟨_, rfl, ?_, ?_⟩
            · exact MergedWellTyped_dictSet merged k _ ⟨hint, hfloat, hbool, haction⟩
                (fun hf => absurd hf h1) (fun hf => absurd hf h2)
            · intro k2 hne
              exact dictGet_dictSet_ne _ _ _ _ hne

theorem merge_items_ok (raw merged : List (String × PyVal))
    (hwt : MergedWellTyped merged) :
    ∃ m, merge_items raw merged = .ok m ∧ MergedWellTyped m ∧
      (∀ k, k ∉ raw.map Prod.fst → dictGet m k = dictGet merged k) := by
  induction raw generalizing merged with
  | nil => exact ⟨merged, rfl, hwt, fun _ _ => rfl⟩
  | cons p rest ih =>
    obtain ⟨k, v⟩ := p
    obtain ⟨m2, hm2, hwt2, hpres2⟩ := merge_item_ok merged k v hwt
    obtain ⟨m, hm, hwtm, hpresm⟩ := ih m2 hwt2
    refine ⟨m, ?_, hwtm, ?_⟩
    · unfold merge_items
      rw [hm2]
      exact hm
    · intro k2 hk2
      simp only [List.map_cons, List.mem_cons] at hk2
      push_neg at hk2
      rw [hpresm k2 hk2.2, hpres2 k2 hk2.1]

/-- C8 counterexample. `RiskParameters.from_dict` raises (rather than
coercing to the default) when a present tenant value cannot be converted by
the bare `float()` call: payload `{"delta_threshold": "abc"}`. -/
theorem from_dict_raises_counterexample :
    RiskParameters.from_dict (some [("delta_threshold", .pstr "abc")]) =
      .error (.valError "could not convert delta_threshold to float") := by
  rfl

/-- C8 (amended). Merging tenant risk-parameter config with the system
defaults (`merge_risk_parameters`) is total: it never raises for any raw
payload, keys missing from the payload keep the documented default value,
and a present value of inconvertible type coerces to that key's default.
`RiskParameters.from_dict`, by contrast, only falls back when the payload
is absent; for a present inconvertible value it raises (see the
counterexample). -/
theorem merge_risk_parameters_total :
    (∀ raw, ∃ m, merge_risk_parameters (some raw) = .ok m ∧
      (∀ k, k ∉ raw.map Prod.fst → dictGet m k = dictGet DEFAULT_RISK_PARAMETERS k)) ∧
    merge_risk_parameters none = .ok DEFAULT_RISK_PARAMETERS ∧
    (∀ k v, k ∈ float_fields → pyFloat v = none →
      ∃ m, merge_risk_parameters (some [(k, v)]) = .ok m ∧
        dictGet m k = dictGet DEFAULT_RISK_PARAMETERS k) ∧
    (∀ k v, k ∈ int_fields → pyInt v = none →
      ∃ m, merge_risk_parameters (some [(k, v)]) = .ok m ∧
        dictGet m k = dictGet DEFAULT_RISK_PARAMETERS k) ∧
    RiskParameters.from_dict none = .ok {} := by
  have hwt : MergedWellTyped DEFAULT_RISK_PARAMETERS := by decide
  have hd1 : ∀ k0 ∈ float_fields, k0 ∉ int_fields := by decide
  refine ⟨?_, rfl, ?_, ?_, rfl⟩
  · intro raw
    obtain ⟨m, hm, _, hpres⟩ := merge_items_ok raw DEFAULT_RISK_PARAMETERS hwt
    exact ⟨m, hm, hpres⟩
  · intro k v hk hv
    obtain ⟨q, hq⟩ := (optIsPFloat_iff _).mp (hwt.2.1 k hk)
    refine ⟨dictSet DEFAULT_RISK_PARAMETERS k (.pfloat (coerce_float v q)), ?_, ?_⟩
    · show merge_items [(k, v)] DEFAULT_RISK_PARAMETERS = _
      unfold merge_items merge_item
      rw [if_neg (hd1 k hk), if_pos hk, hq]
      rfl
    · rw [dictGet_dictSet_self, hq]
      unfold coerce_float
      rw [hv]
      rfl
  · intro k v hk hv
    obtain ⟨i, hi⟩ := (optIsPInt_iff _).mp (hwt.1 k hk)
    refine ⟨dictSet DEFAULT_RISK_PARAMETERS k (.pint (coerce_int v i)), ?_, ?_⟩
    · show merge_items [(k, v)] DEFAULT_RISK_PARAMETERS = _
      unfold merge_items merge_item
      rw [if_pos hk, hi]
      rfl
    · rw [dictGet_dictSet_self, hi]
      unfold coerce_int
      rw [hv]
      rfl

/-- Closed witness for `merge_risk_parameters_total`: an unparseable
`max_size` coerces to the default 10 without raising. -/
theorem merge_risk_parameters_total_witness :
    ∃ m, merge_risk_parameters (some [("max_size", .pstr "oops")]) = .ok m ∧
      dictGet m "max_size" = dictGet DEFAULT_RISK_PARAMETERS "max_size" := by
  exact merge_risk_parameters_total.2.2.2.1 "max_size" (.pstr "oops")
    (by decide) (by decide)

-- ============================================================
-- Calendar dates (for DTE computation in the strategy template resolver)
-- ============================================================

/-- A proleptic-Gregorian calendar date, as held by Python `datetime.date`. -/
structure PDate where
  year : Int
  month : Nat
  day : Nat
deriving DecidableEq, Repr

def isLeapYear (y : Int) : Bool :=
  (y % 4 == 0 && y % 100 != 0) || y % 400 == 0

/-- `calendar.monthrange(y, m)[1]`: number of days in the month. -/
def daysInMonth (y : Int) (m : Nat) : Nat :=
  if m = 2 then (if isLeapYear y then 29 else 28)
  else if m = 4 ∨ m = 6 ∨ m = 9 ∨ m = 11 then 30
  else 31

/-- Civil days since 1970-01-01; date subtraction in days
(`(d1 - d2).days`) is the difference of these ordinals. -/
def daysFromCivil (y : Int) (m : Nat) (d : Nat) : Int :=
  let y2 : Int := if m ≤ 2 then y - 1 else y
  let era : Int := Int.fdiv y2 400
  let yoe : Int := y2 - era * 400
  let mp : Int := (Int.ofNat m + 9) % 12
  let doy : Int := (153 * mp + 2) / 5 + Int.ofNat d - 1
  let doe : Int := yoe * 365 + yoe / 4 - yoe / 100 + doy
  era * 146097 + doe - 719468

def PDate.toDays (d : PDate) : Int := daysFromCivil d.year d.month d.day

/-- `datetime.date(y, m, d)` validity (year bounds are those of
`datetime`). -/
def dateValid (y : Int) (m : Nat) (d : Nat) : Bool :=
  decide (1 ≤ y) && decide (y ≤ 9999) && decide (1 ≤ m) && decide (m ≤ 12) &&
    decide (1 ≤ d) && decide (d ≤ daysInMonth y m)

def mkValidDate (y : Int) (m d : Nat) : Option PDate :=
  if dateValid y m d then some ⟨y, m, d⟩ else none

-- ============================================================
-- backend/strategy_templates/service.py: expiry parsing
-- ============================================================

/-- The `%m` group of CPython `_strptime` (`1[0-2]|0[1-9]|[1-9]`), required
to consume the whole segment. -/
def monthSeg (s : List Char) : Option Nat :=
  match s with
  | [c] => if '1' ≤ c ∧ c ≤ '9' then some (c.toNat - 48) else none
  | [c1, c2] =>
    if c1 = '1' ∧ ('0' ≤ c2 ∧ c2 ≤ '2') then some (10 + (c2.toNat - 48))
    else if c1 = '0' ∧ ('1' ≤ c2 ∧ c2 ≤ '9') then some (c2.toNat - 48)
    else none
  | _ => none

/-- The `%d` group of CPython `_strptime` (`3[01]|[12]\d|0[1-9]|[1-9]`),
required to consume the whole segment. -/
def daySeg (s : List Char) : Option Nat :=
  match s with
  | [c] => if '1' ≤ c ∧ c ≤ '9' then some (c.toNat - 48) else none
  | [c1, c2] =>
    if c1 = '3' ∧ (c2 = '0' ∨ c2 = '1') then some (30 + (c2.toNat - 48))
    else if (c1 = '1' ∨ c1 = '2') ∧ c2.isDigit then
      some ((c1.toNat - 48) * 10 + (c2.toNat - 48))
    else if c1 = '0' ∧ ('1' ≤ c2 ∧ c2 ≤ '9') then some (c2.toNat - 48)
    else none
  | _ => none

/-- Split a character list on a separator character. -/
def splitChar (sep : Char) : List Char → List (List Char)
  | [] => [[]]
  | c :: rest =>
    match splitChar sep rest with
    | [] => [[c]]
    | h :: t => if c = sep then [] :: h :: t else (c :: h) :: t

/-- `datetime.strptime(raw, "%Y-%m-%d")` (or with `/`): four year digits,
separated month and day groups, full-string match, then date validation. -/
def sepYmd (sep : Char) (cs : List Char) : Option PDate :=
  match splitChar sep cs with
  | [ys, ms, ds] =>
    if ys.length = 4 ∧ ys.all Char.isDigit then
      match monthSeg ms, daySeg ds with
      | some m, some d => mkValidDate (Int.ofNat (digitsToNat ys)) m d
      | _, _ => none
    else none
  | _ => none

/-- The `%m` prefix alternatives of the compact `%Y%m%d` format, in the
regex engine's backtracking order (two-digit `1[0-2]`, two-digit `0[1-9]`,
one-digit `[1-9]`), each paired with the unconsumed remainder. -/
def monthPrefixCands (r : List Char) : List (Nat × List Char) :=
  (match r with
   | '1' :: c2 :: rest =>
     if '0' ≤ c2 ∧ c2 ≤ '2' then [(10 + (c2.toNat - 48), rest)] else []
   | _ => []) ++
  (match r with
   | '0' :: c2 :: rest =>
     if '1' ≤ c2 ∧ c2 ≤ '9' then [(c2.toNat - 48, rest)] else []
   | _ => []) ++
  (match r with
   | c :: rest => if '1' ≤ c ∧ c ≤ '9' then [(c.toNat - 48, rest)] else []
   | _ => [])

def firstMonthDay : List (Nat × List Char) → Option (Nat × Nat)
  | [] => none
  | (m, rest) :: more =>
    match daySeg rest with
    | some d => some (m, d)
    | none => firstMonthDay more

/-- `datetime.strptime(digits, "%Y%m%d")`: first regex match in
backtracking order, then date validation (with no further backtracking on
an invalid date, as in `_strptime`). -/
def compactYmd (cs : List Char) : Option PDate :=
  if cs.length < 4 then none
  else
    let ys := cs.take 4
    let r := cs.drop 4
    match firstMonthDay (monthPrefixCands r) with
    | some (m, d) => mkValidDate (Int.ofNat (digitsToNat ys)) m d
    | none => none

/-- `re.search(r"(\d{8})", raw)`: leftmost run of 8 consecutive digits. -/
def find8Run : List Char → Option (List Char)
  | [] => none
  | c :: rest =>
    if ((c :: rest).take 8).length = 8 ∧ ((c :: rest).take 8).all Char.isDigit then
      some ((c :: rest).take 8)
    else find8Run rest

/-- `re.search(r"(\d{6})", raw)`: leftmost run of 6 consecutive digits. -/
def find6Run : List Char → Option (List Char)
  | [] => none
  | c :: rest =>
    if ((c :: rest).take 6).length = 6 ∧ ((c :: rest).take 6).all Char.isDigit then
      some ((c :: rest).take 6)
    else find6Run rest

/-- `StrategyTemplateService._parse_expiry_date`.  The `.error` case models
the uncaught `ValueError` raised by `calendar.monthrange`/`date()` on a
year-0000 six-digit token (the other format attempts catch their own
`ValueError`s). -/
def parse_expiry_date (raw0 : String) : Except String (Option PDate) :=
  let raw := strTrim raw0
  if raw = "" then .ok none
  else
    let cs := raw.data
    match sepYmd '-' cs with
    | some d => .ok (some d)
    | none =>
      match sepYmd '/' cs with
      | some d => .ok (some d)
      | none =>
        match (if cs.all Char.isDigit then compactYmd cs else none) with
        | some d => .ok (some d)
        | none =>
          match (match find8Run cs with
                 | some run => compactYmd run
                 | none => none) with
          | some d => .ok (some d)
          | none =>
            match find6Run cs with
            | none => .ok none
            | some t =>
              let year := digitsToNat (t.take 4)
              let month := digitsToNat (t.drop 4)
              if 1 ≤ month ∧ month ≤ 12 then
                if year = 0 then .error "ValueError: year 0 is out of range"
                else .ok (some ⟨Int.ofNat year, month, daysInMonth (Int.ofNat year) month⟩)
              else .ok none

-- ============================================================
-- backend/strategy_templates/service.py: expiry selection
-- ============================================================

/-- The `expiry_map` loop of `_select_expiry`: first occurrence of each
(stripped) expiry string wins, unparseable expiries are skipped, the
uncaught year-0 `ValueError` propagates. -/
def expiry_map_go (rows : List String) (today : PDate)
    (acc : List (String × Int)) : Except String (List (String × Int)) :=
  match rows with
  | [] => .ok acc.reverse
  | r :: rest =>
    let exp := strTrim r
    if (acc.find? (fun p => p.1 == exp)).isSome then expiry_map_go rest today acc
    else
      match parse_expiry_date exp with
      | .error e => .error e
      | .ok none => expiry_map_go rest today acc
      | .ok (some d) => expiry_map_go rest today ((exp, d.toDays - today.toDays) :: acc)

def expiry_map_of (rows : List String) (today : PDate) :
    Except String (List (String × Int)) :=
  expiry_map_go rows today []

/-- Stable ascending sort by DTE (`sorted(expiry_map.items(), key=dte)`). -/
def sortByDte (m : List (String × Int)) : List (String × Int) :=
  List.insertionSort (fun a b => a.2 ≤ b.2) m

/-- The `_select_expiry` no-match error text: DTE range and up to 8
available expiries sorted ascending by DTE. -/
def no_expiry_message (dte_min dte_max : Int) (m : List (String × Int)) : String :=
  "No expiry matched configured DTE range " ++ toString dte_min ++ "-" ++ toString dte_max ++
    ". Available expiries: " ++
    String.intercalate ", "
      (((sortByDte m).take 8).map (fun p => p.1 ++ " (" ++ toString p.2 ++ "d)"))

/-- Python `min(xs, key=f)`: first element with minimal key. -/
def foldlMinByQ (f : (String × Int) → ℚ) (a : String × Int) (xs : List (String × Int)) :
    String × Int :=
  xs.foldl (fun best y => if f y < f best then y else best) a

/-- `StrategyTemplateService._select_expiry`. -/
def select_expiry (rows : List String) (today : PDate) (dte_min dte_max : Int) :
    Except String (String × Int) :=
  match expiry_map_of rows today with
  | .error e => .error e
  | .ok m =>
    if m.isEmpty then .error "No parseable expiry values in options chain"
    else
      let midpoint : ℚ := ((dte_min : ℚ) + (dte_max : ℚ)) / 2
      match m.filter (fun p => decide (dte_min ≤ p.2) && decide (p.2 ≤ dte_max)) with
      | [] => .error (no_expiry_message dte_min dte_max m)
      | a :: rest => .ok (foldlMinByQ (fun p => pyAbs ((p.2 : ℚ) - midpoint)) a rest)

theorem foldlMinByQ_cons (f : (String × Int) → ℚ) (a x : String × Int)
    (xs : List (String × Int)) :
    foldlMinByQ f a (x :: xs) = foldlMinByQ f (if f x < f a then x else a) xs := rfl

theorem foldlMinByQ_mem (f : (String × Int) → ℚ) (a : String × Int)
    (xs : List (String × Int)) : foldlMinByQ f a xs ∈ a :: xs := by
  induction xs generalizing a with
  | nil => simp [foldlMinByQ]
  | cons x rest ih =>
    rw [foldlMinByQ_cons]
    rcases List.mem_cons.mp (ih (if f x < f a then x else a)) with h | h
    · rw [h]
      split
      · simp
      · simp
    · simp [h]

theorem foldlMinByQ_le (f : (String × Int) → ℚ) (a : String × Int)
    (xs : List (String × Int)) :
    ∀ p ∈ a :: xs, f (foldlMinByQ f a xs) ≤ f p := by
  induction xs generalizing a with
  | nil =>
    intro p hp
    rcases List.mem_cons.mp hp with h | h
    · subst h
      exact le_refl _
    · cases h
  | cons x rest ih =>
    intro p hp
    rw [foldlMinByQ_cons]
    have step := ih (if f x < f a then x else a)
    rcases List.mem_cons.mp hp with h | h
    · rw [h]
      have h1 := step (if f x < f a then x else a) (List.mem_cons_self _ _)
      refine le_trans h1 ?_
      split
      · next hlt => exact le_of_lt hlt
      · exact le_refl _
    · rcases List.mem_cons.mp h with h2 | h2
      · rw [h2]
        have h1 := step (if f x < f a then x else a) (List.mem_cons_self _ _)
        refine le_trans h1 ?_
        split
        · exact le_refl _
        · next hnlt => exact le_of_not_lt hnlt
      · exact step p (List.mem_cons_of_mem _ h2)

instance relDteTotal : IsTotal (String × Int) (fun a b => a.2 ≤ b.2) :=
  ⟨fun a b => le_total a.2 b.2⟩

instance relDteTrans : IsTrans (String × Int) (fun a b => a.2 ≤ b.2) :=
  ⟨fun _ _ _ hab hbc => le_trans hab hbc⟩

/-- C6. Expiry selection keeps exactly the parseable chain expiries whose
DTE lies in `[dte_min, dte_max]`: when some qualify, it returns a kept
expiry whose DTE is within bounds and closest to the midpoint of the range;
when none qualify (but some expiry parsed), it fails with the error listing
up to 8 available expiries sorted ascending by DTE. -/
theorem select_expiry_spec (rows : List String) (today : PDate) (dte_min dte_max : Int)
    (m : List (String × Int)) (hm : expiry_map_of rows today = .ok m) :
    ((m.filter (fun p => decide (dte_min ≤ p.2) && decide (p.2 ≤ dte_max))) ≠ [] →
      ∃ e d, select_expiry rows today dte_min dte_max = .ok (e, d) ∧
        (e, d) ∈ m.filter (fun p => decide (dte_min ≤ p.2) && decide (p.2 ≤ dte_max)) ∧
        dte_min ≤ d ∧ d ≤ dte_max ∧
        ∀ p ∈ m.filter (fun p => decide (dte_min ≤ p.2) && decide (p.2 ≤ dte_max)),
          |(d : ℚ) - ((dte_min : ℚ) + (dte_max : ℚ)) / 2| ≤
            |(p.2 : ℚ) - ((dte_min : ℚ) + (dte_max : ℚ)) / 2|) ∧
    ((m.filter (fun p => decide (dte_min ≤ p.2) && decide (p.2 ≤ dte_max))) = [] →
      m ≠ [] →
      select_expiry rows today dte_min dte_max =
        .error (no_expiry_message dte_min dte_max m) ∧
      (sortByDte m).Sorted (fun a b => a.2 ≤ b.2) ∧ (sortByDte m).Perm m) := by
  constructor
  · intro hne
    have hmne : ¬ m.isEmpty = true := by
      intro h0
      rw [List.isEmpty_iff] at h0
      rw [h0] at hne
      exact hne rfl
    unfold select_expiry
    simp only [hm]
    rw [if_neg hmne]
    rcases hfe : m.filter (fun p => decide (dte_min ≤ p.2) && decide (p.2 ≤ dte_max))
      with - | ⟨a, rest⟩
    · exact absurd hfe hne
    · simp only [hfe]
      refine ⟨_, _, rfl, ?_, ?_, ?_, ?_⟩
      · simpa [foldlMinByQ] using foldlMinByQ_mem
          (fun p => pyAbs ((p.2 : ℚ) - ((dte_min : ℚ) + (dte_max : ℚ)) / 2)) a rest
      · have hmem := foldlMinByQ_mem
          (fun p => pyAbs ((p.2 : ℚ) - ((dte_min : ℚ) + (dte_max : ℚ)) / 2)) a rest
        rw [← hfe] at hmem
        have hpred := List.of_mem_filter hmem
        exact of_decide_eq_true (Bool.and_elim_left hpred)
      · have hmem := foldlMinByQ_mem
          (fun p => pyAbs ((p.2 : ℚ) - ((dte_min : ℚ) + (dte_max : ℚ)) / 2)) a rest
        rw [← hfe] at hmem
        have hpred := List.of_mem_filter hmem
        exact of_decide_eq_true (Bool.and_elim_right hpred)
      · intro p hp
        have := foldlMinByQ_le
          (fun p => pyAbs ((p.2 : ℚ) - ((dte_min : ℚ) + (dte_max : ℚ)) / 2)) a rest p hp
        simpa [pyAbs_eq_abs, foldlMinByQ] using this
  · intro hfe hmne
    unfold select_expiry
    simp only [hm]
    rw [if_neg (by simpa [List.isEmpty_iff] using hmne)]
    simp only [hfe]
    exact ⟨trivial, List.sorted_insertionSort _ m, List.perm_insertionSort _ m⟩

/-- Closed witness for `select_expiry_spec`: a two-expiry chain with DTE 15
and 78 against the range [10, 20] selects an expiry. -/
theorem select_expiry_spec_witness :
    ∃ e d, select_expiry ["2026-01-16", "2026-03-20"] ⟨2026, 1, 1⟩ 10 20 = .ok (e, d) := by
  obtain ⟨e, d, hok, -, -, -, -⟩ :=
    (select_expiry_spec ["2026-01-16", "2026-03-20"] ⟨2026, 1, 1⟩ 10 20
      [("2026-01-16", 15), ("2026-03-20", 78)] (by decide)).1 (by decide)
  exact ⟨e, d, hok⟩

-- ============================================================
-- backend/strategy_templates/service.py: strategy resolution
-- ============================================================

/-- One options-chain row as returned by `Broker.get_options_chain`; absent
dict keys are `none`. -/
structure ChainRow where
  expiry : Option String := none
  strike : Option ℚ := none
  call_delta : Option ℚ := none
  put_delta : Option ℚ := none
  gamma : Option ℚ := none
  theta : Option ℚ := none
  vega : Option ℚ := none
  call_bid : Option ℚ := none
  call_ask : Option ℚ := none
  call_mid : Option ℚ := none
  put_bid : Option ℚ := none
  put_ask : Option ℚ := none
  put_mid : Option ℚ := none
  multiplier : Option ℚ := none
  exchange : Option String := none
  trading_class : Option String := none
deriving Repr

/-- The `StrategyTemplate` row fields the resolver reads. -/
structure StrategyTemplate where
  name : String := ""
  strategy_type : String
  underlying_symbol : String
  dte_min : Int
  dte_max : Int
  center_delta_target : ℚ
  wing_width : ℚ
  max_risk_per_trade : ℚ
  sizing_method : String
  max_contracts : Int
deriving Repr

/-- Python `max(a, b)` on floats (first argument wins ties). -/
def pyMax (a b : ℚ) : ℚ := if a < b then b else a

/-- Python `min(a, b)` on ints (first argument wins ties). -/
def minI (a b : Int) : Int := if b < a then b else a

/-- Python `max(a, b)` on ints (first argument wins ties). -/
def maxI (a b : Int) : Int := if a < b then b else a

/-- Python `min(xs, key=f)` over any element type: first minimal key wins. -/
def pyMinBy {α : Type} (f : α → ℚ) (a : α) (xs : List α) : α :=
  xs.foldl (fun best y => if f y < f best then y else best) a

inductive OptSide where
  | call
  | put

/-- `StrategyTemplateService._extract_mid`. -/
def extract_mid (r : ChainRow) (side : OptSide) : ℚ :=
  let bid := (match side with | .call => r.call_bid | .put => r.put_bid).getD 0
  let ask := (match side with | .call => r.call_ask | .put => r.put_ask).getD 0
  let mid := (match side with | .call => r.call_mid | .put => r.put_mid).getD 0
  if 0 < mid then mid
  else if 0 < bid ∧ 0 < ask then (bid + ask) / 2
  else 0

/-- `StrategyTemplateService._row_for_strike`. -/
def row_for_strike (rows : List ChainRow) (strike : ℚ) : Option ChainRow :=
  rows.find? (fun r => r.strike.getD 0 == strike)

/-- `StrategyTemplateService._select_wing_strikes`. -/
def select_wing_strikes (strikes : List ℚ) (center_strike : ℚ)
    (lower_width upper_width : ℚ) : Except String (ℚ × ℚ) :=
  let lower_candidates := strikes.filter (fun s => decide (s < center_strike))
  let upper_candidates := strikes.filter (fun s => decide (center_strike < s))
  match lower_candidates, upper_candidates with
  | l0 :: ls, u0 :: us =>
    let lower_target := center_strike - pyMax lower_width 0
    let upper_target := center_strike + pyMax upper_width 0
    .ok (pyMinBy (fun x => pyAbs (x - lower_target)) l0 ls,
         pyMinBy (fun x => pyAbs (x - upper_target)) u0 us)
  | _, _ =>
    let low := match strikes with
      | [] => center_strike
      | s0 :: srest => pyMinBy (fun x => x) s0 srest
    let high := match strikes with
      | [] => center_strike
      | s0 :: srest => srest.foldl (fun b y => if b < y then y else b) s0
    .error ("Unable to construct butterfly wings from current chain. " ++
      "Need strikes both below and above center " ++ formatQ center_strike ++
      ", available range is " ++ formatQ low ++ "-" ++ formatQ high ++ ".")

/-- The selection phase of `resolve_strategy_template` (steps up to and
including the greeks-availability check, before `get_market_data`). -/
structure ResolveSel where
  selected_expiry : String
  selected_dte : Int
  expiry_rows : List ChainRow
  center : ChainRow
  center_strike : ℚ
  lower_strike : ℚ
  upper_strike : ℚ
  lower_row : ChainRow
  upper_row : ChainRow

def resolve_select (t : StrategyTemplate) (chain : List ChainRow) (today : PDate) :
    Except String ResolveSel :=
  if chain.isEmpty then
    .error ("No options chain data returned for " ++ t.underlying_symbol)
  else
    let valid_rows := chain.filter (fun r => r.expiry.getD "" != "")
    if valid_rows.isEmpty then .error "No expiry data in options chain"
    else
      match select_expiry (valid_rows.map (fun r => r.expiry.getD "")) today
          t.dte_min t.dte_max with
      | .error e => .error e
      | .ok (selected_expiry, selected_dte) =>
        match valid_rows.filter (fun r => r.expiry.getD "" == selected_expiry) with
        | [] => .error ("No rows found for selected expiry " ++ selected_expiry)
        | c0 :: crest =>
          let expiry_rows := c0 :: crest
          let center := pyMinBy
            (fun r => pyAbs (pyAbs (r.call_delta.getD 0) - t.center_delta_target)) c0 crest
          match center.strike with
          | none => .error "KeyError: strike"
          | some center_strike =>
            let strikes := List.insertionSort (fun a b => a ≤ b)
              (expiry_rows.filterMap (fun r => r.strike)).dedup
            let upper_width := if t.strategy_type != "broken_wing_butterfly" then
                t.wing_width
              else t.wing_width * (3/2)
            match select_wing_strikes strikes center_strike t.wing_width upper_width with
            | .error e => .error e
            | .ok (lower_strike, upper_strike) =>
              match row_for_strike expiry_rows lower_strike,
                  row_for_strike expiry_rows upper_strike with
              | some lower_row, some upper_row =>
                if (lower_row.call_delta.isNone ∨ center.call_delta.isNone ∨
                      upper_row.call_delta.isNone) ∨
                    (t.strategy_type = "iron_fly" ∧
                      (lower_row.put_delta.isNone ∨ center.put_delta.isNone ∨
                        upper_row.put_delta.isNone)) then
                  .error "Greeks unavailable for selected contracts"
                else
                  .ok ⟨selected_expiry, selected_dte, expiry_rows, center, center_strike,
                    lower_strike, upper_strike, lower_row, upper_row⟩
              | _, _ => .error "Missing required wing contracts in options chain"

/-- The sizing block of `resolve_strategy_template` (lines 203–207):
`contracts = 1`, overridden for `risk_based` by
`max(1, int(max_risk_per_trade // max(max_loss_per_1, 1.0)))`, then capped
at `max_contracts`. -/
def compute_contracts (sizing_method : String) (max_risk_per_trade max_loss_per_1 : ℚ)
    (max_contracts : Int) : Int :=
  let contracts : Int := 1
  let contracts :=
    if sizing_method == "risk_based" then
      maxI 1 ⌊max_risk_per_trade / pyMax max_loss_per_1 1⌋
    else contracts
  minI contracts max_contracts

/-- Round-half-even to `nd` decimal places: Python `round(x, nd)` on the
exact rational value. -/
def pyRoundTo (x : ℚ) (nd : Nat) : ℚ :=
  let scale : ℚ := (10 : ℚ) ^ nd
  let y := x * scale
  let f := ⌊y⌋
  let r := y - f
  let n : Int := if r > 1/2 then f + 1 else if r < 1/2 then f
    else (if f % 2 = 0 then f else f + 1)
  (n : ℚ) / scale

/-- One leg dict built by `StrategyTemplateService._leg`. -/
structure Leg where
  action : String
  ratio : Int
  symbol : String
  instrument : String
  expiry : String
  strike : ℚ
  right : String
  exchange : String
  trading_class : Option String
  multiplier : Option String
  delta : ℚ
  mid_price : ℚ
deriving Repr

/-- `StrategyTemplateService._leg`. -/
def make_leg (action : String) (ratio : Int) (t : StrategyTemplate) (expiry : String)
    (strike : ℚ) (r : ChainRow) (right : String) : Leg :=
  let side : OptSide := if strUpper right == "P" then .put else .call
  { action := action, ratio := ratio, symbol := t.underlying_symbol, instrument := "FOP",
    expiry := expiry, strike := strike, right := strUpper right,
    exchange := r.exchange.getD "CME", trading_class := r.trading_class,
    multiplier := (match r.multiplier with
      | none => none
      | some m => if m == 0 then none else some (formatQ m)),
    delta := (match side with | .call => r.call_delta | .put => r.put_delta).getD 0,
    mid_price := extract_mid r side }

/-- `StrategyTemplateService._estimate_pnl_curve`. -/
def estimate_pnl_curve (underlying lower center upper premium multiplier : ℚ)
    (contracts : Int) (strategy_type : String) : List (ℚ × ℚ) :=
  [9/10, 19/20, 1, 21/20, 11/10].map (fun factor =>
    let s := underlying * factor
    if strategy_type == "iron_fly" then
      let payoff := pyMax (lower - s) 0 - pyMax (center - s) 0 - pyMax (s - center) 0 +
        pyMax (s - upper) 0
      (pyRoundTo s 2, pyRoundTo ((premium + payoff) * multiplier * contracts) 2)
    else
      let payoff := pyMax (s - lower) 0 - 2 * pyMax (s - center) 0 + pyMax (s - upper) 0
      (pyRoundTo s 2, pyRoundTo ((payoff - premium) * multiplier * contracts) 2))

/-- The numeric phase of `resolve_strategy_template` after `get_market_data`
(pricing, sizing, max-risk gate, net greeks, legs), with every intermediate
local variable exposed. -/
structure ResolveNums where
  sel : ResolveSel
  underlying : ℚ
  estimated_net_premium : ℚ
  contract_multiplier : ℚ
  max_loss_per_1 : ℚ
  contracts : Int
  estimated_max_risk : ℚ
  net_delta_1 : ℚ
  net_gamma : ℚ
  net_theta : ℚ
  net_vega : ℚ
  legs : List Leg

def resolve_finish (t : StrategyTemplate) (sel : ResolveSel) (underlying_price : ℚ) :
    Except String ResolveNums :=
  let underlying := if underlying_price ≤ 0 then sel.center_strike else underlying_price
  let lower_call_mid := extract_mid sel.lower_row .call
  let center_call_mid := extract_mid sel.center .call
  let upper_call_mid := extract_mid sel.upper_row .call
  let lower_put_mid := extract_mid sel.lower_row .put
  let center_put_mid := extract_mid sel.center .put
  let estimated_net_premium :=
    if t.strategy_type == "iron_fly" then
      (center_call_mid + center_put_mid) - (lower_put_mid + upper_call_mid)
    else
      (lower_call_mid + upper_call_mid) - 2 * center_call_mid
  let contract_multiplier : ℚ :=
    match sel.center.multiplier with
    | none => 50
    | some m => if m == 0 then 50 else m
  let max_loss_per_1 :=
    if t.strategy_type == "iron_fly" then
      pyMax (pyMax (sel.center_strike - sel.lower_strike)
          (sel.upper_strike - sel.center_strike) - pyMax estimated_net_premium 0) 0 *
        contract_multiplier
    else
      pyMax ((sel.center_strike - sel.lower_strike) - pyMax estimated_net_premium 0) 0 *
        contract_multiplier
  let contracts := compute_contracts t.sizing_method t.max_risk_per_trade max_loss_per_1
    t.max_contracts
  let estimated_max_risk := max_loss_per_1 * contracts
  if estimated_max_risk > t.max_risk_per_trade then
    .error ("Resolved structure risk " ++ formatQ estimated_max_risk ++
      " exceeds max_risk_per_trade " ++ formatQ t.max_risk_per_trade)
  else
    if t.strategy_type == "iron_fly" then
      .ok {
        sel := sel,
        underlying := underlying,
        estimated_net_premium := estimated_net_premium,
        contract_multiplier := contract_multiplier,
        max_loss_per_1 := max_loss_per_1,
        contracts := contracts,
        estimated_max_risk := estimated_max_risk,
        net_delta_1 := -(sel.center.call_delta.getD 0) - (sel.center.put_delta.getD 0) +
          (sel.lower_row.put_delta.getD 0) + (sel.upper_row.call_delta.getD 0),
        net_gamma := (-(sel.center.gamma.getD 0) - (sel.center.gamma.getD 0) +
          (sel.lower_row.gamma.getD 0) + (sel.upper_row.gamma.getD 0)) * contracts,
        net_theta := (-(sel.center.theta.getD 0) - (sel.center.theta.getD 0) +
          (sel.lower_row.theta.getD 0) + (sel.upper_row.theta.getD 0)) * contracts,
        net_vega := (-(sel.center.vega.getD 0) - (sel.center.vega.getD 0) +
          (sel.lower_row.vega.getD 0) + (sel.upper_row.vega.getD 0)) * contracts,
        legs := [
          make_leg "BUY" 1 t sel.selected_expiry sel.lower_strike sel.lower_row "P",
          make_leg "SELL" 1 t sel.selected_expiry sel.center_strike sel.center "P",
          make_leg "SELL" 1 t sel.selected_expiry sel.center_strike sel.center "C",
          make_leg "BUY" 1 t sel.selected_expiry sel.upper_strike sel.upper_row "C"] }
    else
      .ok {
        sel := sel,
        underlying := underlying,
        estimated_net_premium := estimated_net_premium,
        contract_multiplier := contract_multiplier,
        max_loss_per_1 := max_loss_per_1,
        contracts := contracts,
        estimated_max_risk := estimated_max_risk,
        net_delta_1 := (sel.lower_row.call_delta.getD 0) -
          2 * (sel.center.call_delta.getD 0) + (sel.upper_row.call_delta.getD 0),
        net_gamma := ((sel.lower_row.gamma.getD 0) - 2 * (sel.center.gamma.getD 0) +
          (sel.upper_row.gamma.getD 0)) * contracts,
        net_theta := ((sel.lower_row.theta.getD 0) - 2 * (sel.center.theta.getD 0) +
          (sel.upper_row.theta.getD 0)) * contracts,
        net_vega := ((sel.lower_row.vega.getD 0) - 2 * (sel.center.vega.getD 0) +
          (sel.upper_row.vega.getD 0)) * contracts,
        legs := [
          make_leg "BUY" 1 t sel.selected_expiry sel.lower_strike sel.lower_row "C",
          make_leg "SELL" 2 t sel.selected_expiry sel.center_strike sel.center "C",
          make_leg "BUY" 1 t sel.selected_expiry sel.upper_strike sel.upper_row "C"] }

/-- The `ResolvedStrategy` payload returned by `resolve_strategy_template`. -/
structure ResolvedStrategy where
  strategy_type : String
  expiry : String
  dte : Int
  center_strike : ℚ
  estimated_net_premium : ℚ
  estimated_max_risk : ℚ
  estimated_net_delta : ℚ
  contracts : Int
  greeks_delta : ℚ
  greeks_gamma : ℚ
  greeks_theta : ℚ
  greeks_vega : ℚ
  pnl_curve : List (ℚ × ℚ)
  legs : List Leg
deriving Repr

def nums_to_resolved (t : StrategyTemplate) (nums : ResolveNums) : ResolvedStrategy :=
  let net_delta := nums.net_delta_1 * nums.contracts
  { strategy_type := t.strategy_type, expiry := nums.sel.selected_expiry,
    dte := nums.sel.selected_dte, center_strike := nums.sel.center_strike,
    estimated_net_premium := pyRoundTo nums.estimated_net_premium 4,
    estimated_max_risk := pyRoundTo nums.estimated_max_risk 2,
    estimated_net_delta := pyRoundTo net_delta 4,
    contracts := nums.contracts,
    greeks_delta := pyRoundTo net_delta 4,
    greeks_gamma := pyRoundTo nums.net_gamma 4,
    greeks_theta := pyRoundTo nums.net_theta 4,
    greeks_vega := pyRoundTo nums.net_vega 4,
    pnl_curve := estimate_pnl_curve nums.underlying nums.sel.lower_strike
      nums.sel.center_strike nums.sel.upper_strike nums.estimated_net_premium
      nums.contract_multiplier nums.contracts t.strategy_type,
    legs := nums.legs }

/-- `StrategyTemplateService.resolve_strategy_template` given the broker's
chain and market-data responses. -/
def resolve_strategy_template (t : StrategyTemplate) (chain : List ChainRow)
    (underlying_price : Option ℚ) (today : PDate) : Except String ResolvedStrategy :=
  match resolve_select t chain today with
  | .error e => .error e
  | .ok sel =>
    match resolve_finish t sel (underlying_price.getD 0) with
    | .error e => .error e
    | .ok nums => .ok (nums_to_resolved t nums)

-- ============================================================
-- Claim C7: contract sizing and the max-risk gate
-- ============================================================

/-- C7 (amended). When `resolve_finish` succeeds: under `risk_based` sizing
the contract count is `max(1, floor(max_risk_per_trade / max(maxLossPer1,
1)))` capped at `max_contracts` — the divisor is the risk per contract
clamped below by 1, not `maxLossPer1` itself; under any other sizing method
it is 1 (also capped); and resolution fails with an error whenever
`maxLossPer1 × contracts > max_risk_per_trade` (so success implies the
risk bound holds). -/
theorem resolve_sizing_spec (t : StrategyTemplate) (sel : ResolveSel)
    (underlying_price : ℚ) (nums : ResolveNums)
    (h : resolve_finish t sel underlying_price = .ok nums) :
    nums.contracts =
      minI (if t.sizing_method == "risk_based" then
          maxI 1 ⌊t.max_risk_per_trade / pyMax nums.max_loss_per_1 1⌋
        else 1) t.max_contracts ∧
    (t.sizing_method ≠ "risk_based" → nums.contracts = minI 1 t.max_contracts) ∧
    nums.max_loss_per_1 * nums.contracts ≤ t.max_risk_per_trade := by
  simp only [resolve_finish] at h
  split at h <;>
  (split at h
   · exact absurd h (by simp)
   · next hrisk =>
     rw [not_lt] at hrisk
     split at h <;>
     (injection h with h2
      subst h2
      refine ⟨?_, ?_, ?_⟩
      · simp [compute_contracts]
      · intro hne
        have hb : (t.sizing_method == "risk_based") = false := by
          simpa using hne
        simp [compute_contracts, hb]
      · simpa using hrisk))

def rowC7a : ChainRow :=
  { expiry := some "2026-01-16", strike := some 99, call_delta := some (3/5) }

def rowC7b : ChainRow :=
  { expiry := some "2026-01-16", strike := some 100, call_delta := some (1/2),
    multiplier := some (1/2) }

def rowC7c : ChainRow :=
  { expiry := some "2026-01-16", strike := some 101, call_delta := some (2/5) }

def chainC7 : List ChainRow := [rowC7a, rowC7b, rowC7c]

def tmplC7 : StrategyTemplate :=
  { strategy_type := "butterfly", underlying_symbol := "ES", dte_min := 10, dte_max := 20,
    center_delta_target := 1/2, wing_width := 1, max_risk_per_trade := 10,
    sizing_method := "risk_based", max_contracts := 100 }

def selC7 : ResolveSel :=
  ⟨"2026-01-16", 15, chainC7, rowC7b, 100, 99, 101, rowC7a, rowC7c⟩

def numsC7 : ResolveNums :=
  { sel := selC7, underlying := 100, estimated_net_premium := 0,
    contract_multiplier := 1/2, max_loss_per_1 := 1/2, contracts := 10,
    estimated_max_risk := 5, net_delta_1 := 0, net_gamma := 0, net_theta := 0,
    net_vega := 0,
    legs := [
      make_leg "BUY" 1 tmplC7 "2026-01-16" 99 rowC7a "C",
      make_leg "SELL" 2 tmplC7 "2026-01-16" 100 rowC7b "C",
      make_leg "BUY" 1 tmplC7 "2026-01-16" 101 rowC7c "C"] }

theorem resolve_select_C7_eval :
    resolve_select tmplC7 chainC7 ⟨2026, 1, 1⟩ = .ok selC7 := by
  have h1 : select_expiry ["2026-01-16", "2026-01-16", "2026-01-16"] ⟨2026, 1, 1⟩ 10 20 =
      .ok ("2026-01-16", 15) := by decide
  simp [resolve_select, chainC7, rowC7a, rowC7b, rowC7c, tmplC7, h1, selC7]
  norm_num [pyMinBy, pyAbs, select_wing_strikes, row_for_strike, pyMax, beq_iff_eq]
  rintro (h | h | h) <;> simp at h

theorem resolve_finish_C7_eval :
    resolve_finish tmplC7 selC7 100 = .ok numsC7 := by
  norm_num [resolve_finish, tmplC7, selC7, numsC7, chainC7, rowC7a, rowC7b, rowC7c,
    extract_mid, pyMax, compute_contracts, maxI, minI, pyMinBy, make_leg]
  simp

/-- C7 counterexample. A butterfly with per-contract loss 0.5 (below 1) and
max risk 10 resolves to 10 contracts — the code divides by
`max(maxLossPer1, 1.0)` — while the claim's formula
`max(1, floor(max_risk_per_trade / maxLossPer1))` capped at `max_contracts`
would give 20. -/
theorem resolve_sizing_counterexample :
    resolve_select tmplC7 chainC7 ⟨2026, 1, 1⟩ = .ok selC7 ∧
    resolve_finish tmplC7 selC7 100 = .ok numsC7 ∧
    numsC7.max_loss_per_1 = 1/2 ∧
    numsC7.contracts = 10 ∧
    minI (maxI 1 ⌊tmplC7.max_risk_per_trade / numsC7.max_loss_per_1⌋)
      tmplC7.max_contracts = 20 ∧
    numsC7.contracts ≠
      minI (maxI 1 ⌊tmplC7.max_risk_per_trade / numsC7.max_loss_per_1⌋)
        tmplC7.max_contracts := by
  refine ⟨resolve_select_C7_eval, resolve_finish_C7_eval, rfl, rfl, ?_, ?_⟩
  · norm_num [tmplC7, numsC7, minI, maxI]
  · norm_num [tmplC7, numsC7, minI, maxI]

/-- Closed witness for `resolve_sizing_spec` at the concrete butterfly
resolution above. -/
theorem resolve_sizing_spec_witness :
    numsC7.contracts =
      minI (if tmplC7.sizing_method == "risk_based" then
          maxI 1 ⌊tmplC7.max_risk_per_trade / pyMax numsC7.max_loss_per_1 1⌋
        else 1) tmplC7.max_contracts ∧
    (tmplC7.sizing_method ≠ "risk_based" → numsC7.contracts = minI 1 tmplC7.max_contracts) ∧
    numsC7.max_loss_per_1 * numsC7.contracts ≤ tmplC7.max_risk_per_trade :=
  resolve_sizing_spec tmplC7 selC7 100 numsC7 resolve_finish_C7_eval

-- ============================================================
-- backend/api/trades.py: idempotent fill ingestion
-- ============================================================

/-- A `trades` table row (the columns `ingest_trade_fill` reads/writes). -/
structure TradeRow where
  id : Int
  client_id : String
  action : String
  order_id : Option String := none
  fill_price : Option ℚ := none
  status : String := "submitted"
  pnl : ℚ := 0
  qty : Int := 0
deriving Repr

/-- A `trade_fills` table row (the columns relevant to ingestion; the two
unique indexes are `(client_id, trade_id, ingest_idempotency_key)` and
`(client_id, trade_id, broker_fill_id)`, each ignoring NULL keys). -/
structure FillRow where
  id : Int
  client_id : String
  trade_id : Int
  order_id : Option String := none
  broker_fill_id : Option String := none
  ingest_idempotency_key : Option String := none
  status : String := "filled"
  qty : Int
  fill_price : ℚ
  expected_price : Option ℚ := none
  slippage_bps : Option ℚ := none
  fees : ℚ := 0
  realized_pnl : Option ℚ := none
deriving Repr

/-- Modelled from the spec: `TradeFillIngestRequest` (the pydantic schema
module is not under src/); a plain carrier of the payload fields
`ingest_trade_fill` reads. -/
structure TradeFillIngestRequest where
  idempotency_key : Option String := none
  broker_fill_id : Option String := none
  status : String := "filled"
  qty : Int
  fill_price : ℚ
  expected_price : Option ℚ := none
  fees : ℚ := 0
  realized_pnl : Option ℚ := none
deriving Repr

structure TradesDb where
  trades : List TradeRow
  fills : List FillRow
  next_fill_id : Int
  audits : List String := []
deriving Repr

structure HttpError where
  status : Int
  detail : String
deriving Repr, DecidableEq

/-- `order_by(desc(TradeFill.id)).limit(1)`: the matching row with the
greatest id. -/
def maxIdFold (a : FillRow) (xs : List FillRow) : FillRow :=
  xs.foldl (fun best y => if best.id < y.id then y else best) a

def maxIdRow : List FillRow → Option FillRow
  | [] => none
  | f :: rest => some (maxIdFold f rest)

/-- `_find_existing_fill` from `backend/api/trades.py`: look up by
idempotency key first, then by broker fill id. -/
def find_existing_fill (fills : List FillRow) (client_id : String) (trade_id : Int)
    (idempotency_key broker_fill_id : Option String) : Option FillRow :=
  let byKey :=
    match idempotency_key with
    | none => none
    | some k => maxIdRow (fills.filter (fun f =>
        f.client_id == client_id && f.trade_id == trade_id &&
          f.ingest_idempotency_key == some k))
  match byKey with
  | some f => some f
  | none =>
    match broker_fill_id with
    | none => none
    | some b => maxIdRow (fills.filter (fun f =>
        f.client_id == client_id && f.trade_id == trade_id && f.broker_fill_id == some b))

/-- Whether inserting `f` into `table` violates one of the two unique
indexes on `trade_fills` (NULL key columns never conflict). -/
def uniqueViolation (table : List FillRow) (f : FillRow) : Bool :=
  (f.ingest_idempotency_key.isSome &&
    table.any (fun g => g.client_id == f.client_id && g.trade_id == f.trade_id &&
      g.ingest_idempotency_key == f.ingest_idempotency_key)) ||
  (f.broker_fill_id.isSome &&
    table.any (fun g => g.client_id == f.client_id && g.trade_id == f.trade_id &&
      g.broker_fill_id == f.broker_fill_id))

/-- `Idempotency-Key` header `or` payload key (Python `or`: the header wins
when it is a non-empty string). -/
def effective_raw_key (header payload_key : Option String) : Option String :=
  match header with
  | some s => if s ≠ "" then some s else payload_key
  | none => payload_key

/-- `ingest_trade_fill` from `backend/api/trades.py`.  `concurrent` models
rows committed by a racing ingest between this call's pre-check and its
commit: the commit raises `IntegrityError` exactly when the new row
violates a unique index against every row already committed (including
those), in which case the session is rolled back (the new fill, the trade
update, and the audit row are all discarded) and the handler re-queries. -/
def ingest_trade_fill (db : TradesDb) (client_id : String) (trade_id : Int)
    (payload : TradeFillIngestRequest) (idempotency_key_header : Option String)
    (concurrent : List FillRow) : Except HttpError FillRow × TradesDb :=
  match db.trades.find? (fun t => t.id == trade_id) with
  | none => (.error ⟨404, "Trade not found"⟩, db)
  | some trade =>
    if trade.client_id ≠ client_id then (.error ⟨404, "Trade not found"⟩, db)
    else
      let normalized_idempotency_key :=
        normalizeOptionalText (effective_raw_key idempotency_key_header payload.idempotency_key)
      let normalized_broker_fill_id := normalizeOptionalText payload.broker_fill_id
      match find_existing_fill db.fills client_id trade_id normalized_idempotency_key
          normalized_broker_fill_id with
      | some existing => (.ok existing, db)
      | none =>
        let existing_fills := db.fills.filter (fun f =>
          f.client_id == client_id && f.trade_id == trade_id)
        let expected_price :=
          match payload.expected_price with
          | some e => some e
          | none => trade.fill_price
        let slippage_bps := compute_slippage_bps trade.action payload.fill_price expected_price
        let fill : FillRow :=
          { id := db.next_fill_id, client_id := client_id, trade_id := trade_id,
            order_id := trade.order_id, broker_fill_id := normalized_broker_fill_id,
            ingest_idempotency_key := normalized_idempotency_key, status := payload.status,
            qty := payload.qty, fill_price := payload.fill_price,
            expected_price := expected_price, slippage_bps := slippage_bps,
            fees := payload.fees, realized_pnl := payload.realized_pnl }
        let total_qty := payload.qty + (existing_fills.map (fun f => f.qty)).sum
        let total_notional := payload.fill_price * (payload.qty : ℚ) +
          (existing_fills.map (fun f => f.fill_price * (f.qty : ℚ))).sum
        let new_fill_price := if 0 < total_qty then total_notional / (total_qty : ℚ)
          else payload.fill_price
        let upd_trade :=
          { trade with
            status := payload.status
            fill_price := some new_fill_price
            pnl := match payload.realized_pnl with | some p => p | none => trade.pnl }
        let table := db.fills ++ concurrent
        if uniqueViolation table fill then
          let db2 : TradesDb := { db with fills := table }
          match find_existing_fill db2.fills client_id trade_id normalized_idempotency_key
              normalized_broker_fill_id with
          | some existing => (.ok existing, db2)
          | none => (.error ⟨409, "Duplicate fill ingest conflict"⟩, db2)
        else
          (.ok fill,
            { db with
              trades := db.trades.map (fun t => if t.id == trade_id then upd_trade else t),
              fills := table ++ [fill],
              next_fill_id := db.next_fill_id + 1,
              audits := db.audits ++ ["trade_fill_ingested"] })

theorem maxIdFold_mem (a : FillRow) (xs : List FillRow) : maxIdFold a xs ∈ a :: xs := by
  induction xs generalizing a with
  | nil => simp [maxIdFold]
  | cons x rest ih =>
    rw [show maxIdFold a (x :: rest) = maxIdFold (if a.id < x.id then x else a) rest from rfl]
    rcases List.mem_cons.mp (ih (if a.id < x.id then x else a)) with h | h
    · rw [h]
      split
      · simp
      · simp
    · simp [h]

theorem maxIdFold_append (a : FillRow) (xs : List FillRow) (f : FillRow) :
    maxIdFold a (xs ++ [f]) = if (maxIdFold a xs).id < f.id then f else maxIdFold a xs := by
  simp [maxIdFold, List.foldl_append]

theorem maxIdRow_append_of_lt (l : List FillRow) (f : FillRow)
    (h : ∀ g ∈ l, g.id < f.id) : maxIdRow (l ++ [f]) = some f := by
  cases l with
  | nil => rfl
  | cons x xs =>
    simp only [List.cons_append, maxIdRow]
    rw [maxIdFold_append, if_pos (h _ (maxIdFold_mem x xs))]

theorem maxIdRow_of_ne_nil (l : List FillRow) (h : l ≠ []) :
    ∃ f, maxIdRow l = some f ∧ f ∈ l := by
  cases l with
  | nil => exact absurd rfl h
  | cons x xs => exact ⟨maxIdFold x xs, rfl, maxIdFold_mem x xs⟩

/-- The row found by id is replaced in place by a trade update that keeps
its id. -/
theorem find_map_update (l : List TradeRow) (tid : Int) (u tr : TradeRow)
    (hfound : l.find? (fun t => t.id == tid) = some tr) (hu : u.id = tr.id) :
    (l.map (fun t => if t.id == tid then u else t)).find? (fun t => t.id == tid) =
      some u := by
  induction l with
  | nil => cases hfound
  | cons x xs ih =>
    cases hbx : (x.id == tid) with
    | true =>
      simp only [List.find?, hbx] at hfound
      injection hfound with hfx
      subst hfx
      have hbu : (u.id == tid) = true := by rw [hu]; exact hbx
      simp only [List.map_cons, if_pos (show (x.id == tid) = true from hbx),
        List.find?, hbu]
    | false =>
      simp only [List.find?, hbx] at hfound
      simp only [List.map_cons, List.find?, hbx, Bool.false_eq_true, if_false]
      exact ih hfound

/-- After appending a new fill whose id dominates the table, both unique-key
lookups find exactly that fill. -/
theorem find_existing_fill_append_self (fills : List FillRow) (cid : String) (tid : Int)
    (nk nb : Option String) (fill : FillRow)
    (hid : ∀ g ∈ fills, g.id < fill.id)
    (hc : fill.client_id = cid) (ht : fill.trade_id = tid)
    (hk : fill.ingest_idempotency_key = nk) (hb : fill.broker_fill_id = nb)
    (hkeys : nk ≠ none ∨ nb ≠ none) :
    find_existing_fill (fills ++ [fill]) cid tid nk nb = some fill := by
  cases nk with
  | some k =>
    have hbk : maxIdRow ((fills ++ [fill]).filter (fun f =>
        f.client_id == cid && f.trade_id == tid &&
          f.ingest_idempotency_key == some k)) = some fill := by
      rw [List.filter_append]
      rw [show List.filter (fun f => f.client_id == cid && f.trade_id == tid &&
          f.ingest_idempotency_key == some k) [fill] = [fill] by
        simp [List.filter, hc, ht, hk]]
      exact maxIdRow_append_of_lt _ _ (fun g hg => hid g (List.mem_of_mem_filter hg))
    simp only [find_existing_fill, hbk]
  | none =>
    rcases hkeys with hkk | hbb
    · exact absurd rfl hkk
    · cases nb with
      | none => exact absurd rfl hbb
      | some b =>
        have hbk : maxIdRow ((fills ++ [fill]).filter (fun f =>
            f.client_id == cid && f.trade_id == tid &&
              f.broker_fill_id == some b)) = some fill := by
          rw [List.filter_append]
          rw [show List.filter (fun f => f.client_id == cid && f.trade_id == tid &&
              f.broker_fill_id == some b) [fill] = [fill] by
            simp [List.filter, hc, ht, hb]]
          exact maxIdRow_append_of_lt _ _ (fun g hg => hid g (List.mem_of_mem_filter hg))
        simp only [find_existing_fill, hbk]

theorem maxIdRow_eq_none (l : List FillRow) : maxIdRow l = none ↔ l = [] := by
  cases l <;> simp [maxIdRow]

/-- A committed row sharing client, trade and idempotency key makes the
insert violate the first unique index. -/
theorem uniqueViolation_true_of_mem (table : List FillRow) (f c : FillRow)
    (hc : c ∈ table) (h1 : c.client_id = f.client_id) (h2 : c.trade_id = f.trade_id)
    (h3 : c.ingest_idempotency_key = f.ingest_idempotency_key)
    (h4 : ∃ k, f.ingest_idempotency_key = some k) :
    uniqueViolation table f = true := by
  obtain ⟨k, hk⟩ := h4
  simp only [uniqueViolation, Bool.or_eq_true, Bool.and_eq_true]
  left
  exact ⟨by simp [hk], List.any_eq_true.mpr ⟨c, hc, by simp [h1, h2, h3]⟩⟩

/-- When some row in the table matches the idempotency key, the key lookup
succeeds and the returned row matches the key. -/
theorem find_existing_fill_key_some (fills : List FillRow) (cid : String) (tid : Int)
    (k : String) (nb : Option String) (c : FillRow) (hc : c ∈ fills)
    (h1 : c.client_id = cid) (h2 : c.trade_id = tid)
    (h3 : c.ingest_idempotency_key = some k) :
    ∃ e, find_existing_fill fills cid tid (some k) nb = some e ∧
      e.client_id = cid ∧ e.trade_id = tid ∧ e.ingest_idempotency_key = some k := by
  have hcf : c ∈ fills.filter (fun f => f.client_id == cid && f.trade_id == tid &&
      f.ingest_idempotency_key == some k) :=
    List.mem_filter.mpr ⟨hc, by simp [h1, h2, h3]⟩
  obtain ⟨e, he, hmem⟩ := maxIdRow_of_ne_nil _ (List.ne_nil_of_mem hcf)
  obtain ⟨hein, hep⟩ := List.mem_filter.mp hmem
  simp only [Bool.and_eq_true, beq_iff_eq] at hep
  refine ⟨e, ?_, hep.1.1, hep.1.2, hep.2⟩
  simp only [find_existing_fill, he]

/-- When the target trade exists for the client and a lookup by the
normalized keys hits, ingestion returns that row and leaves the database
unchanged. -/
theorem ingest_returns_existing (db : TradesDb) (client_id : String) (trade_id : Int)
    (payload : TradeFillIngestRequest) (header : Option String)
    (trade : TradeRow) (f : FillRow)
    (hft : db.trades.find? (fun t => t.id == trade_id) = some trade)
    (hcl : ¬ (trade.client_id ≠ client_id))
    (hpre : find_existing_fill db.fills client_id trade_id
        (normalizeOptionalText (effective_raw_key header payload.idempotency_key))
        (normalizeOptionalText payload.broker_fill_id) = some f) :
    ingest_trade_fill db client_id trade_id payload header [] = (.ok f, db) := by
  simp only [ingest_trade_fill, hft, if_neg hcl, hpre]

/-- C2: Ingesting the same fill twice with the same idempotency key (or
broker fill id) returns the same row both times with no duplicate insert —
a second call on the state produced by a successful first call returns the
very same row and leaves the database (trades, fills, weighted fill price,
audits) untouched — and when a concurrent duplicate surfaces as a
unique-constraint violation on commit, the handler rolls back, re-queries
and returns the existing matching row instead of surfacing an error. -/
theorem ingest_fill_idempotent (db : TradesDb) (client_id : String) (trade_id : Int)
    (payload : TradeFillIngestRequest) (header : Option String) :
    ((∀ g ∈ db.fills, g.id < db.next_fill_id) →
     (normalizeOptionalText (effective_raw_key header payload.idempotency_key) ≠ none ∨
      normalizeOptionalText payload.broker_fill_id ≠ none) →
     ∀ f1 db1, ingest_trade_fill db client_id trade_id payload header [] = (.ok f1, db1) →
       ingest_trade_fill db1 client_id trade_id payload header [] = (.ok f1, db1)) ∧
    (∀ (trade : TradeRow) (k : String) (c : FillRow) (concurrent : List FillRow),
      db.trades.find? (fun t => t.id == trade_id) = some trade →
      trade.client_id = client_id →
      normalizeOptionalText (effective_raw_key header payload.idempotency_key) = some k →
      find_existing_fill db.fills client_id trade_id
        (normalizeOptionalText (effective_raw_key header payload.idempotency_key))
        (normalizeOptionalText payload.broker_fill_id) = none →
      c ∈ concurrent → c.client_id = client_id → c.trade_id = trade_id →
      c.ingest_idempotency_key = some k →
      ∃ f, ingest_trade_fill db client_id trade_id payload header concurrent =
          (.ok f, { db with fills := db.fills ++ concurrent }) ∧
        f.client_id = client_id ∧ f.trade_id = trade_id ∧
        f.ingest_idempotency_key = some k) := by
  constructor
  · intro hinv hkeys f1 db1 h1
    simp only [ingest_trade_fill] at h1
    split at h1
    · simp at h1
    · next trade hft =>
      split at h1
      · simp at h1
      · next hne =>
        split at h1
        · next existing hpre =>
          simp only [Prod.mk.injEq, Except.ok.injEq] at h1
          obtain ⟨rfl, rfl⟩ := h1
          exact ingest_returns_existing _ _ _ _ _ _ _ hft hne hpre
        · next hpre =>
          split at h1
          · split at h1
            · next existing hre =>
              simp only [Prod.mk.injEq, Except.ok.injEq] at h1
              obtain ⟨rfl, rfl⟩ := h1
              exact ingest_returns_existing _ _ _ _ _ _ _ hft hne hre
            · simp at h1
          · simp only [Prod.mk.injEq, Except.ok.injEq] at h1
            obtain ⟨rfl, rfl⟩ := h1
            exact ingest_returns_existing _ _ _ _ _ _ _
              (find_map_update _ _ _ _ hft rfl) hne
              (find_existing_fill_append_self _ _ _ _ _ _
                (fun g hg => by rw [List.append_nil] at hg; exact hinv g hg)
                rfl rfl rfl rfl hkeys)
  · intro trade k c concurrent hft hcl hnk hpre hcin hc1 hc2 hck
    simp only [ingest_trade_fill, hft]
    rw [if_neg (show ¬ (trade.client_id ≠ client_id) from fun h => h hcl)]
    simp only [hpre]
    split
    · rw [hnk]
      obtain ⟨e, he, he1, he2, he3⟩ := find_existing_fill_key_some
        (db.fills ++ concurrent) client_id trade_id k
        (normalizeOptionalText payload.broker_fill_id) c
        (List.mem_append.mpr (Or.inr hcin)) hc1 hc2 hck
      simp only [he]
      exact ⟨e, rfl, he1, he2, he3⟩
    · next hv =>
      exact absurd (uniqueViolation_true_of_mem _ _ c
        (List.mem_append.mpr (Or.inr hcin)) hc1 hc2 (hck.trans hnk.symm) ⟨k, hnk⟩) hv

def tradeC2 : TradeRow := { id := 1, client_id := "c1", action := "BUY" }

def fillC2 : FillRow :=
  { id := 1
    client_id := "c1"
    trade_id := 1
    ingest_idempotency_key := some "key-1"
    qty := 1
    fill_price := 10 }

def fillC2c : FillRow :=
  { id := 7
    client_id := "c1"
    trade_id := 1
    ingest_idempotency_key := some "key-1"
    qty := 2
    fill_price := 11 }

def payC2 : TradeFillIngestRequest :=
  { idempotency_key := some "key-1"
    qty := 1
    fill_price := 10 }

def dbC2a : TradesDb := { trades := [tradeC2], fills := [fillC2], next_fill_id := 2 }

def dbC2b : TradesDb := { trades := [tradeC2], fills := [], next_fill_id := 1 }

theorem ingest_fill_idempotent_witness :
    ingest_trade_fill dbC2a "c1" 1 payC2 none [] = (.ok fillC2, dbC2a) ∧
    ∃ f, ingest_trade_fill dbC2b "c1" 1 payC2 none [fillC2c] =
        (.ok f, { dbC2b with fills := dbC2b.fills ++ [fillC2c] }) ∧
      f.client_id = "c1" ∧ f.trade_id = 1 ∧ f.ingest_idempotency_key = some "key-1" :=
  ⟨(ingest_fill_idempotent dbC2a "c1" 1 payC2 none).1
      (by decide) (Or.inl (by decide)) fillC2 dbC2a rfl,
   (ingest_fill_idempotent dbC2b "c1" 1 payC2 none).2 tradeC2 "key-1" fillC2c [fillC2c]
      rfl rfl rfl rfl (List.Mem.head []) rfl rfl rfl⟩

-- ============================================================
-- backend/api/trades.py: auto-remediation policy evaluation
-- ============================================================

def ALERT_SEVERITY_SCORE : List (String × Int) := [("warning", 1), ("critical", 2)]

/-- An execution alert (`{"id": ..., "severity": ..., "label": ...}`). -/
structure Alert where
  id : String
  severity : String
  label : String
deriving Repr, DecidableEq

/-- `ALERT_SEVERITY_SCORE.get(severity, 0)`. -/
def alertScore (s : String) : Int :=
  ((ALERT_SEVERITY_SCORE.find? (fun p => p.1 == s)).map (·.2)).getD 0

/-- `_pick_primary_alert`: highest severity score wins, first one on ties. -/
def pick_primary_alert (alerts : List Alert) : Option Alert :=
  (alerts.foldl (fun acc alert =>
      let score := alertScore alert.severity
      if acc.2 < score then (some alert, score) else acc)
    ((none : Option Alert), (-1 : Int))).1

/-- `_normalize_action` from `backend/api/trades.py`. -/
def normalize_action : PyVal → String
  | .pnone => "none"
  | v =>
    let normalized := strLower (strTrim (pyStr v))
    if normalized ∈ AUTO_REMEDIATION_ACTIONS then normalized else "none"

/-- `_cooldown_remaining_seconds` (datetimes are modelled as UTC epoch
seconds, so `(now - last_action_at).total_seconds()` is plain subtraction;
`int()` truncates). -/
def cooldown_remaining_seconds (last_action_at : Option ℚ) (now : ℚ)
    (cooldown_minutes : Int) : Int :=
  match last_action_at with
  | none => 0
  | some t =>
    if cooldown_minutes ≤ 0 then 0
    else
      let elapsed := now - t
      let remaining := (cooldown_minutes : ℚ) * 60 - elapsed
      if 0 < remaining then qTrunc remaining else 0

/-- Civil date from days since 1970-01-01 (the inverse of `daysFromCivil`;
the source's `(z >= 0 ? z : z - 146096) / 146097` computes the floored
era). -/
def civilFromDays (z0 : Int) : Int × Int × Int :=
  let z := z0 + 719468
  let era : Int := Int.fdiv z 146097
  let doe : Int := z - era * 146097
  let yoe : Int := (doe - doe / 1460 + doe / 36524 - doe / 146096) / 365
  let y : Int := yoe + era * 400
  let doy : Int := doe - (365 * yoe + yoe / 4 - yoe / 100)
  let mp : Int := (5 * doy + 2) / 153
  let d : Int := doy - (153 * mp + 2) / 5 + 1
  let m : Int := mp + (if mp < 10 then 3 else -9)
  (y + (if m ≤ 2 then 1 else 0), m, d)

def padNat (n : Nat) (w : Nat) : String :=
  let s := toString n
  String.mk (List.replicate (w - s.length) '0') ++ s

/-- `datetime.isoformat()` of an aware UTC datetime given as epoch seconds
(microseconds printed only when nonzero, as CPython does). -/
def isoOfEpoch (t : ℚ) : String :=
  let z := ⌊t / 86400⌋
  let rem := t - (z : ℚ) * 86400
  let secs := ⌊rem⌋
  let frac := rem - (secs : ℚ)
  let usec := (⌊frac * 1000000⌋).toNat
  let ymd := civilFromDays z
  padNat ymd.1.toNat 4 ++ "-" ++ padNat ymd.2.1.toNat 2 ++ "-" ++
    padNat ymd.2.2.toNat 2 ++ "T" ++
    padNat (secs / 3600).toNat 2 ++ ":" ++ padNat ((secs % 3600) / 60).toNat 2 ++ ":" ++
    padNat (secs % 60).toNat 2 ++
    (if usec = 0 then "" else "." ++ padNat usec 6) ++ "+00:00"

/-- `_to_iso_or_none`. -/
def toIsoOrNone : Option ℚ → Option String
  | none => none
  | some t => some (isoOfEpoch t)

def optStrVal : Option String → PyVal
  | none => .pnone
  | some s => .pstr s

/-- UTC-offset suffix of an ISO-8601 string (`fromisoformat`): empty
(a naive datetime, later given `tzinfo=utc` by `_as_utc`), `Z`, or
`±HH:MM`.  Returns the offset in seconds. -/
def parseOffsetIso : List Char → Option ℚ
  | [] => some 0
  | ['Z'] => some 0
  | [sign, h1, h2, ':', m1, m2] =>
    if (sign = '+' ∨ sign = '-') ∧ [h1, h2, m1, m2].all Char.isDigit then
      let hh := digitsToNat [h1, h2]
      let mm := digitsToNat [m1, m2]
      if hh ≤ 23 ∧ mm ≤ 59 then
        let v : ℚ := (hh : ℚ) * 3600 + (mm : ℚ) * 60
        some (if sign = '-' then -v else v)
      else none
    else none
  | _ => none

/-- Fractional-second part (1–6 digits) plus UTC offset. -/
def parseFracOff (cs : List Char) : Option (ℚ × ℚ) :=
  match cs with
  | '.' :: rest =>
    let ds := rest.takeWhile Char.isDigit
    let rest2 := rest.dropWhile Char.isDigit
    if 1 ≤ ds.length ∧ ds.length ≤ 6 then
      match parseOffsetIso rest2 with
      | some off => some ((digitsToNat ds : ℚ) / ((10 : ℚ) ^ ds.length), off)
      | none => none
    else none
  | _ => (parseOffsetIso cs).map (fun off => ((0 : ℚ), off))

/-- Time-of-day part (`[T ]HH:MM[:SS[.ffffff]]`) plus UTC offset; returns
(seconds past midnight, offset seconds). -/
def parseTimeOff (cs : List Char) : Option (ℚ × ℚ) :=
  match cs with
  | [] => some (0, 0)
  | sep :: h1 :: h2 :: ':' :: mi1 :: mi2 :: rest =>
    if (sep = 'T' ∨ sep = ' ') ∧ [h1, h2, mi1, mi2].all Char.isDigit then
      let h := digitsToNat [h1, h2]
      let mi := digitsToNat [mi1, mi2]
      if h ≤ 23 ∧ mi ≤ 59 then
        let base : ℚ := (h : ℚ) * 3600 + (mi : ℚ) * 60
        match rest with
        | ':' :: s1 :: s2 :: rest2 =>
          if [s1, s2].all Char.isDigit ∧ digitsToNat [s1, s2] ≤ 59 then
            match parseFracOff rest2 with
            | some (frac, off) => some (base + (digitsToNat [s1, s2] : ℚ) + frac, off)
            | none => none
          else none
        | _ => (parseOffsetIso rest).map (fun off => (base, off))
      else none
    else none
  | _ => none

/-- `_as_utc(datetime.fromisoformat(raw))` as UTC epoch seconds, for the
ISO-8601 extended format this backend emits and accepts
(`YYYY-MM-DD[{T,space}HH:MM[:SS[.ffffff]]][offset]`); a naive stamp is
reinterpreted with `tzinfo=utc`, an aware one is converted to UTC. -/
def fromisoformatUtc (s : String) : Option ℚ :=
  match s.data with
  | y1 :: y2 :: y3 :: y4 :: '-' :: m1 :: m2 :: '-' :: d1 :: d2 :: rest =>
    if [y1, y2, y3, y4, m1, m2, d1, d2].all Char.isDigit then
      let y : Int := (digitsToNat [y1, y2, y3, y4] : Int)
      let mo := digitsToNat [m1, m2]
      let d := digitsToNat [d1, d2]
      if 1 ≤ y ∧ 1 ≤ mo ∧ mo ≤ 12 ∧ 1 ≤ d ∧ d ≤ daysInMonth y mo then
        match parseTimeOff rest with
        | some (secs, off) =>
          some ((daysFromCivil y mo d : ℚ) * 86400 + secs - off)
        | none => none
      else none
    else none
  | _ => none

/-- `_parse_timestamp`: `None` passes through, a `datetime` is normalized
to UTC, anything else is stringified, stripped, `Z`-rewritten and ISO
parsed (`None` on failure). -/
def parse_timestamp : PyVal → Option ℚ
  | .pnone => none
  | .pdt t => some t
  | v =>
    let raw := strTrim (pyStr v)
    if raw = "" then none
    else
      let raw2 := if raw.endsWith "Z" then raw.dropRight 1 ++ "+00:00" else raw
      fromisoformatUtc raw2

/-- `bool(merged.get("auto_remediation_enabled", False))`. -/
def remediation_enabled (merged : List (String × PyVal)) : Bool :=
  (dictGetD merged "auto_remediation_enabled" (.pbool false)).truthy

/-- `max(_coerce_int(merged.get("auto_remediation_cooldown_minutes"), 20), 0)`. -/
def remediation_cooldown_minutes (merged : List (String × PyVal)) : Int :=
  maxI (coerce_int (dictGetD merged "auto_remediation_cooldown_minutes" .pnone) 20) 0

/-- `max(_coerce_int(merged.get("auto_remediation_max_actions_per_hour"), 2), 1)`. -/
def remediation_max_actions_per_hour (merged : List (String × PyVal)) : Int :=
  maxI (coerce_int (dictGetD merged "auto_remediation_max_actions_per_hour" .pnone) 2) 1

/-- The hourly guardrail window: action count and window start after the
rolling 1-hour reset (lines 413-417 of `backend/api/trades.py`). -/
def remediation_window (merged : List (String × PyVal)) (now : ℚ) : Int × ℚ :=
  let actions := maxI (coerce_int (dictGetD merged "auto_remediation_actions_last_hour" .pnone) 0) 0
  match parse_timestamp (dictGetD merged "auto_remediation_window_started_at" .pnone) with
  | none => (0, now)
  | some w => if 3600 ≤ now - w then (0, now) else (actions, w)

def remediation_last_action (merged : List (String × PyVal)) : String :=
  normalize_action (dictGetD merged "auto_remediation_last_action" .pnone)

def remediation_last_action_at (merged : List (String × PyVal)) : Option ℚ :=
  parse_timestamp (dictGetD merged "auto_remediation_last_action_at" .pnone)

def remediation_cooldown_remaining (merged : List (String × PyVal)) (now : ℚ) : Int :=
  cooldown_remaining_seconds (remediation_last_action_at merged) now
    (remediation_cooldown_minutes merged)

/-- `"auto_remediation_critical_action"` for a critical alert, else the
warning key. -/
def remediation_policy_key (a : Alert) : String :=
  if a.severity == "critical" then "auto_remediation_critical_action"
  else "auto_remediation_warning_action"

def remediation_planned_action (merged : List (String × PyVal)) (a : Alert) : String :=
  normalize_action (dictGetD merged (remediation_policy_key a) .pnone)

/-- Modelled from the spec: `AutoRemediationStatusOut` (the pydantic schema
module is not under src/); a plain carrier of the fields the policy
evaluator returns. -/
structure AutoRemediationStatusOut where
  enabled : Bool
  active_alert_id : Option String
  active_alert_severity : Option String
  planned_action : String
  outcome : String
  message : String
  cooldown_minutes : Int
  cooldown_remaining_seconds : Int
  actions_last_hour : Int
  max_actions_per_hour : Int
  last_action : Option String
  last_action_at : Option ℚ
deriving Repr

/-- The local state of `_evaluate_auto_remediation_policy` after the
outcome branch (lines 427-487). -/
structure RemediationDecision where
  planned_action : String
  outcome : String
  message : String
  next_mode : String
  updated : List (String × PyVal)
  actions_last_hour : Int
  last_action : String
  last_action_at : Option ℚ
  cooldown_remaining_seconds : Int
  audit_details : Option (List (String × PyVal))
deriving Repr

/-- Lines 427-487 of `_evaluate_auto_remediation_policy`: pick the outcome
and apply the action. -/
def remediation_decision (current_mode : String) (raw merged : List (String × PyVal))
    (alerts : List Alert) (now : ℚ) : RemediationDecision :=
  let actions_last_hour := (remediation_window merged now).1
  let last_action := remediation_last_action merged
  let last_action_at := remediation_last_action_at merged
  let cooldown_remaining := remediation_cooldown_remaining merged now
  match pick_primary_alert alerts with
  | none =>
    { planned_action := "none"
      outcome := "no_alert"
      message := "No active execution alerts."
      next_mode := current_mode
      updated := raw
      actions_last_hour := actions_last_hour
      last_action := last_action
      last_action_at := last_action_at
      cooldown_remaining_seconds := cooldown_remaining
      audit_details := none }
  | some alert =>
    let planned := remediation_planned_action merged alert
    let suppressed (outcome message : String) : RemediationDecision :=
      { planned_action := planned
        outcome := outcome
        message := message
        next_mode := current_mode
        updated := raw
        actions_last_hour := actions_last_hour
        last_action := last_action
        last_action_at := last_action_at
        cooldown_remaining_seconds := cooldown_remaining
        audit_details := none }
    if !remediation_enabled merged then
      suppressed "disabled" "Auto-remediation is disabled."
    else if planned == "none" then
      suppressed "no_action" ("Alert " ++ alert.id ++ " has no configured remediation action.")
    else if remediation_max_actions_per_hour merged ≤ actions_last_hour then
      suppressed "rate_limited" ("Suppressed by hourly guardrail (" ++
        toString actions_last_hour ++ "/" ++
        toString (remediation_max_actions_per_hour merged) ++ ").")
    else if 0 < cooldown_remaining then
      suppressed "cooldown" ("Suppressed by cooldown (" ++
        toString cooldown_remaining ++ "s remaining).")
    else
      let step :=
        if planned == "pause_autonomous" then
          if current_mode == "autonomous" then
            ("executed", "Paused autonomous mode after " ++ alert.id ++ " alert.",
              "confirmation", raw)
          else
            ("noop", "Autonomous mode is already paused.", current_mode, raw)
        else if planned == "apply_conservative" then
          let cu := CONSERVATIVE_RISK_PRESET.foldl
            (fun (acc : Bool × List (String × PyVal)) kv =>
              (acc.1 || !((dictGetD acc.2 kv.1 .pnone).beq kv.2),
                dictSet acc.2 kv.1 kv.2))
            (false, raw)
          if cu.1 then
            ("executed", "Applied conservative preset after " ++ alert.id ++ " alert.",
              current_mode, cu.2)
          else
            ("noop", "Conservative preset is already active.", current_mode, cu.2)
        else
          ("no_action", "Unsupported remediation action '" ++ planned ++ "' configured.",
            current_mode, raw)
      if step.1 == "executed" then
        { planned_action := planned
          outcome := step.1
          message := step.2.1
          next_mode := step.2.2.1
          updated := step.2.2.2
          actions_last_hour := actions_last_hour + 1
          last_action := planned
          last_action_at := some now
          cooldown_remaining_seconds :=
            cooldown_remaining_seconds (some now) now (remediation_cooldown_minutes merged)
          audit_details := some
            [("alert_id", .pstr alert.id),
             ("severity", .pstr alert.severity),
             ("action", .pstr planned),
             ("message", .pstr step.2.1),
             ("mode_before", .pstr current_mode),
             ("mode_after", .pstr step.2.2.1),
             ("actions_last_hour", .pint (actions_last_hour + 1)),
             ("max_actions_per_hour", .pint (remediation_max_actions_per_hour merged)),
             ("cooldown_minutes", .pint (remediation_cooldown_minutes merged)),
             ("evaluated_at", .pstr (isoOfEpoch now))] }
      else
        { planned_action := planned
          outcome := step.1
          message := step.2.1
          next_mode := step.2.2.1
          updated := step.2.2.2
          actions_last_hour := actions_last_hour
          last_action := last_action
          last_action_at := last_action_at
          cooldown_remaining_seconds := cooldown_remaining
          audit_details := none }

/-- `_evaluate_auto_remediation_policy` from `backend/api/trades.py`
(lines 398-518): returns the status payload, the next mode, the updated
raw risk-parameter dict (the eight `auto_remediation_*` bookkeeping keys
are rewritten on every evaluation) and the optional audit payload. -/
def evaluate_auto_remediation_policy (current_mode : String)
    (raw merged : List (String × PyVal)) (alerts : List Alert) (now : ℚ) :
    AutoRemediationStatusOut × String × List (String × PyVal) ×
      Option (List (String × PyVal)) :=
  let dec := remediation_decision current_mode raw merged alerts now
  let alert := pick_primary_alert alerts
  let active_alert_id := alert.map (·.id)
  let active_alert_severity := alert.map (·.severity)
  let persisted_last_action := if dec.last_action ≠ "none" then some dec.last_action else none
  let window_started_at := (remediation_window merged now).2
  let updated :=
    dictSet (dictSet (dictSet (dictSet (dictSet (dictSet (dictSet (dictSet dec.updated
      "auto_remediation_actions_last_hour" (.pint dec.actions_last_hour))
      "auto_remediation_window_started_at" (optStrVal (toIsoOrNone (some window_started_at))))
      "auto_remediation_last_action" (optStrVal persisted_last_action))
      "auto_remediation_last_action_at" (optStrVal (toIsoOrNone dec.last_action_at)))
      "auto_remediation_last_alert_id" (optStrVal active_alert_id))
      "auto_remediation_last_alert_severity" (optStrVal active_alert_severity))
      "auto_remediation_last_outcome" (.pstr dec.outcome))
      "auto_remediation_last_reason" (.pstr dec.message)
  let out : AutoRemediationStatusOut :=
    { enabled := remediation_enabled merged
      active_alert_id := active_alert_id
      active_alert_severity :=
        match active_alert_severity with
        | some s => if (ALERT_SEVERITY_SCORE.map Prod.fst).contains s then some s else none
        | none => none
      planned_action := dec.planned_action
      outcome := dec.outcome
      message := dec.message
      cooldown_minutes := remediation_cooldown_minutes merged
      cooldown_remaining_seconds := dec.cooldown_remaining_seconds
      actions_last_hour := dec.actions_last_hour
      max_actions_per_hour := remediation_max_actions_per_hour merged
      last_action := persisted_last_action
      last_action_at := dec.last_action_at }
  (out, dec.next_mode, updated, dec.audit_details)

/-- The eight `auto_remediation_*` bookkeeping keys that
`_evaluate_auto_remediation_policy` rewrites in the returned risk-parameter
dict on every evaluation. -/
def remediationBookkeepingKeys : List String :=
  ["auto_remediation_actions_last_hour", "auto_remediation_window_started_at",
   "auto_remediation_last_action", "auto_remediation_last_action_at",
   "auto_remediation_last_alert_id", "auto_remediation_last_alert_severity",
   "auto_remediation_last_outcome", "auto_remediation_last_reason"]

def nowC9 : ℚ := 1767225600

def alertC9 : Alert := { id := "slippage", severity := "critical", label := "Slippage" }

def rawC9 : List (String × PyVal) :=
  [("auto_remediation_enabled", .pbool true),
   ("auto_remediation_critical_action", .pstr "pause_autonomous"),
   ("auto_remediation_cooldown_minutes", .pint 20),
   ("auto_remediation_last_action", .pstr "pause_autonomous"),
   ("auto_remediation_last_action_at", .pdt 1767225300),
   ("auto_remediation_actions_last_hour", .pint 1),
   ("auto_remediation_window_started_at", .pdt 1767225300),
   ("auto_remediation_last_outcome", .pstr "executed")]

theorem remediation_C9_window : remediation_window rawC9 nowC9 = (1, 1767225300) := by
  simp [remediation_window, rawC9, nowC9, dictGetD, dictGet, List.find?,
    parse_timestamp, coerce_int, pyInt, maxI]
  norm_num

theorem remediation_C9_cooldown : remediation_cooldown_remaining rawC9 nowC9 = 900 := by
  simp [remediation_cooldown_remaining, remediation_last_action_at,
    remediation_cooldown_minutes, cooldown_remaining_seconds, parse_timestamp,
    rawC9, nowC9, dictGetD, dictGet, List.find?, coerce_int, pyInt, maxI, qTrunc]
  norm_num [Int.floor_eq_iff]

/-- Shared evaluation of the C9 scenario (enabled, cooldown 20 min, a
`pause_autonomous` action executed 5 minutes ago, a second critical alert):
the decision is the cooldown suppression. -/
theorem remediation_C9_decision :
    remediation_decision "confirmation" rawC9 rawC9 [alertC9] nowC9 =
      { planned_action := remediation_planned_action rawC9 alertC9
        outcome := "cooldown"
        message := "Suppressed by cooldown (" ++
          toString (remediation_cooldown_remaining rawC9 nowC9) ++ "s remaining)."
        next_mode := "confirmation"
        updated := rawC9
        actions_last_hour := (remediation_window rawC9 nowC9).1
        last_action := remediation_last_action rawC9
        last_action_at := remediation_last_action_at rawC9
        cooldown_remaining_seconds := remediation_cooldown_remaining rawC9 nowC9
        audit_details := none } := by
  have ha : pick_primary_alert [alertC9] = some alertC9 := by rfl
  have hen : remediation_enabled rawC9 = true := by rfl
  have hpl : (remediation_planned_action rawC9 alertC9 == "none") = false := by decide
  have hrate : ¬ (remediation_max_actions_per_hour rawC9 ≤ (remediation_window rawC9 nowC9).1) := by
    rw [remediation_C9_window]
    decide
  have hcool : 0 < remediation_cooldown_remaining rawC9 nowC9 := by
    rw [remediation_C9_cooldown]
    decide
  simp [remediation_decision, ha, hen, hpl, hrate, hcool]

/-- C9 counterexample: in exactly the claimed scenario (auto-remediation
enabled, cooldown_minutes = 20, one pause_autonomous action executed 5
minutes earlier, a second critical alert within the window) the outcome is
"cooldown" — but the risk parameters are NOT left unchanged: the returned
updated dict rewrites the bookkeeping keys, e.g. auto_remediation_last_outcome
flips from "executed" to "cooldown", so the updated dict differs from the raw
one (and is persisted by the caller whenever it differs). -/
theorem auto_remediation_cooldown_counterexample :
    (evaluate_auto_remediation_policy "confirmation" rawC9 rawC9 [alertC9] nowC9).1.outcome =
      "cooldown" ∧
    dictGet (evaluate_auto_remediation_policy "confirmation" rawC9 rawC9 [alertC9] nowC9).2.2.1
      "auto_remediation_last_outcome" = some (.pstr "cooldown") ∧
    dictGet rawC9 "auto_remediation_last_outcome" = some (.pstr "executed") ∧
    (evaluate_auto_remediation_policy "confirmation" rawC9 rawC9 [alertC9] nowC9).2.2.1 ≠
      rawC9 := by
  have h1 : (evaluate_auto_remediation_policy "confirmation" rawC9 rawC9 [alertC9] nowC9).1.outcome =
      "cooldown" := by
    simp [evaluate_auto_remediation_policy, remediation_C9_decision]
  have h2 : dictGet (evaluate_auto_remediation_policy "confirmation" rawC9 rawC9
      [alertC9] nowC9).2.2.1 "auto_remediation_last_outcome" = some (.pstr "cooldown") := by
    simp only [evaluate_auto_remediation_policy, remediation_C9_decision]
    rw [dictGet_dictSet_ne _ _ _ _ (by decide)]
    rw [dictGet_dictSet_self]
  have h3 : dictGet rawC9 "auto_remediation_last_outcome" = some (.pstr "executed") := by rfl
  refine ⟨h1, h2, h3, fun he => ?_⟩
  rw [he, h3] at h2
  simp at h2

/-- C9 (amended): with auto-remediation enabled, an active alert whose
configured action is not "none", the hourly guardrail not exhausted and a
positive cooldown remaining, evaluating the policy reports outcome
"cooldown", leaves the mode unchanged, executes no action (no audit
payload, action count unchanged), and leaves every risk parameter other
than the eight auto_remediation_* bookkeeping keys unchanged (those
bookkeeping keys are rewritten, so the returned dict itself differs from
the raw one). -/
theorem auto_remediation_cooldown_amended (current_mode : String)
    (raw merged : List (String × PyVal)) (alerts : List Alert) (now : ℚ) (a : Alert)
    (ha : pick_primary_alert alerts = some a)
    (hen : remediation_enabled merged = true)
    (hpl : remediation_planned_action merged a ≠ "none")
    (hrate : (remediation_window merged now).1 < remediation_max_actions_per_hour merged)
    (hcool : 0 < remediation_cooldown_remaining merged now) :
    (evaluate_auto_remediation_policy current_mode raw merged alerts now).1.outcome =
      "cooldown" ∧
    (evaluate_auto_remediation_policy current_mode raw merged alerts now).2.1 =
      current_mode ∧
    (evaluate_auto_remediation_policy current_mode raw merged alerts now).2.2.2 = none ∧
    (evaluate_auto_remediation_policy current_mode raw merged alerts now).1.actions_last_hour =
      (remediation_window merged now).1 ∧
    ∀ key, key ∉ remediationBookkeepingKeys →
      dictGet (evaluate_auto_remediation_policy current_mode raw merged alerts now).2.2.1
        key = dictGet raw key := by
  have hdec : remediation_decision current_mode raw merged alerts now =
      { planned_action := remediation_planned_action merged a
        outcome := "cooldown"
        message := "Suppressed by cooldown (" ++
          toString (remediation_cooldown_remaining merged now) ++ "s remaining)."
        next_mode := current_mode
        updated := raw
        actions_last_hour := (remediation_window merged now).1
        last_action := remediation_last_action merged
        last_action_at := remediation_last_action_at merged
        cooldown_remaining_seconds := remediation_cooldown_remaining merged now
        audit_details := none } := by
    simp [remediation_decision, ha, hen, beq_eq_false_iff_ne.mpr hpl,
      not_le.mpr hrate, hcool]
  refine ⟨?_, ?_, ?_, ?_, ?_⟩
  · simp [evaluate_auto_remediation_policy, hdec]
  · simp [evaluate_auto_remediation_policy, hdec]
  · simp [evaluate_auto_remediation_policy, hdec]
  · simp [evaluate_auto_remediation_policy, hdec]
  · intro key hk
    simp only [remediationBookkeepingKeys, List.mem_cons, List.not_mem_nil, or_false,
      not_or] at hk
    obtain ⟨h1, h2, h3, h4, h5, h6, h7, h8⟩ := hk
    simp only [evaluate_auto_remediation_policy, hdec]
    rw [dictGet_dictSet_ne _ _ _ _ h8, dictGet_dictSet_ne _ _ _ _ h7,
      dictGet_dictSet_ne _ _ _ _ h6, dictGet_dictSet_ne _ _ _ _ h5,
      dictGet_dictSet_ne _ _ _ _ h4, dictGet_dictSet_ne _ _ _ _ h3,
      dictGet_dictSet_ne _ _ _ _ h2, dictGet_dictSet_ne _ _ _ _ h1]

theorem auto_remediation_cooldown_amended_witness :
    (evaluate_auto_remediation_policy "confirmation" rawC9 rawC9 [alertC9] nowC9).1.outcome =
      "cooldown" ∧
    (evaluate_auto_remediation_policy "confirmation" rawC9 rawC9 [alertC9] nowC9).2.1 =
      "confirmation" ∧
    (evaluate_auto_remediation_policy "confirmation" rawC9 rawC9 [alertC9] nowC9).2.2.2 =
      none ∧
    (evaluate_auto_remediation_policy "confirmation" rawC9 rawC9 [alertC9]
        nowC9).1.actions_last_hour = (remediation_window rawC9 nowC9).1 ∧
    ∀ key, key ∉ remediationBookkeepingKeys →
      dictGet (evaluate_auto_remediation_policy "confirmation" rawC9 rawC9 [alertC9]
        nowC9).2.2.1 key = dictGet rawC9 key :=
  auto_remediation_cooldown_amended "confirmation" rawC9 rawC9 [alertC9] nowC9 alertC9
    rfl rfl (by decide)
    (by rw [remediation_C9_window]; decide)
    (by rw [remediation_C9_cooldown]; decide)

-- ============================================================
-- backend/safety/emergency_halt.py and backend/agent/strategy_registry.py
-- ============================================================

/-- `EmergencyHaltState` from `backend/safety/emergency_halt.py` (the two
fields the execution gates read); `EmergencyHaltController.get()` re-reads
the shared store and returns its current state, so a controller read is
modelled as this store value. -/
structure EmergencyHaltState where
  halted : Bool
  reason : String
deriving Repr, DecidableEq

/-- Observable side effects of the execution pipelines, in emission order:
audit rows, broker adapter calls, database row inserts and stream
events. -/
inductive Effect where
  | auditEmit (event_type : String)
  | brokerCall (method : String)
  | dbWrite (table : String)
  | streamEvent (event_type : String)
deriving Repr, DecidableEq

/-- Python `a or b` on dict values (truthiness). -/
def orElsePy (a b : PyVal) : PyVal := if a.truthy then a else b

/-- The JSON lists reaching the registry's set comprehensions. -/
def pyListOf : PyVal → List PyVal
  | .plist xs => xs
  | _ => []

/-- `StrategySpec` from `backend/agent/strategy_registry.py`. -/
structure StrategySpec where
  strategy_id : String
  name : String
  max_legs : Int
  allowed_instruments : List String
  allowed_symbols : List String
  require_defined_risk : Bool
deriving Repr, DecidableEq

/-- The allowlist `StrategyRegistry._specs`. -/
def registry_specs : List (String × StrategySpec) :=
  [("delta_rebalance_single",
    { strategy_id := "delta_rebalance_single"
      name := "Single-leg delta rebalance"
      max_legs := 1
      allowed_instruments := ["FOP", "FUT"]
      allowed_symbols := ["ES", "NQ", "SI", "GC", "CL"]
      require_defined_risk := false }),
   ("vertical_spread",
    { strategy_id := "vertical_spread"
      name := "Defined-risk vertical spread"
      max_legs := 2
      allowed_instruments := ["FOP"]
      allowed_symbols := ["ES", "NQ", "SI", "GC", "CL"]
      require_defined_risk := true }),
   ("iron_condor",
    { strategy_id := "iron_condor"
      name := "Defined-risk iron condor"
      max_legs := 4
      allowed_instruments := ["FOP"]
      allowed_symbols := ["ES", "NQ", "SI", "GC", "CL"]
      require_defined_risk := true }),
   ("long_strangle",
    { strategy_id := "long_strangle"
      name := "Long strangle"
      max_legs := 2
      allowed_instruments := ["FOP"]
      allowed_symbols := ["ES", "NQ", "SI", "GC", "CL"]
      require_defined_risk := false }),
   ("short_strangle_defined",
    { strategy_id := "short_strangle_defined"
      name := "Short strangle with wings"
      max_legs := 4
      allowed_instruments := ["FOP"]
      allowed_symbols := ["ES", "NQ", "SI", "GC", "CL"]
      require_defined_risk := true })]

/-- `StrategyRegistry._extract_legs`. -/
def extract_legs (trade_payload : List (String × PyVal)) : List (List (String × PyVal)) :=
  match dictGetD trade_payload "legs" .pnone with
  | .plist raw_legs =>
    if !raw_legs.isEmpty then
      raw_legs.filterMap (fun leg => match leg with | .pdict d => some d | _ => none)
    else [trade_payload]
  | _ => [trade_payload]

/-- `StrategyRegistry._is_defined_risk`. -/
def is_defined_risk (legs : List (List (String × PyVal))) : Bool :=
  if legs.length < 2 then false
  else
    let actions := legs.map (fun leg => strUpper (pyStr (dictGetD leg "action" (.pstr ""))))
    actions.contains "BUY" && actions.contains "SELL"

/-- `StrategyRegistry._instrument_to_asset_class`. -/
def instrument_to_asset_class (instrument : String) : String :=
  let normalized := strUpper instrument
  if normalized ∈ ["FOP", "OPT", "OPTION"] then "fop"
  else if normalized ∈ ["FUT", "FUTURE"] then "future"
  else "unknown"

/-- The per-leg symbol: `str(leg.get("symbol") or payload.get("symbol") or
"").upper()`. -/
def legSymbol (trade_payload leg : List (String × PyVal)) : String :=
  strUpper (pyStr (orElsePy (dictGetD leg "symbol" .pnone)
    (orElsePy (dictGetD trade_payload "symbol" .pnone) (.pstr ""))))

/-- The per-leg instrument: `str(leg.get("instrument") or
payload.get("instrument") or "FOP").upper()`. -/
def legInstrument (trade_payload leg : List (String × PyVal)) : String :=
  strUpper (pyStr (orElsePy (dictGetD leg "instrument" .pnone)
    (orElsePy (dictGetD trade_payload "instrument" .pnone) (.pstr "FOP"))))

/-- The first raised error of a per-leg check loop. -/
def firstLegErr (legs : List (List (String × PyVal)))
    (check : List (String × PyVal) → Except PyErr Unit) : Except PyErr Unit :=
  match legs with
  | [] => .ok ()
  | leg :: rest =>
    match check leg with
    | .error e => .error e
    | .ok _ => firstLegErr rest check

/-- `StrategyRegistry.validate_trade_payload`. -/
def validate_trade_payload (trade_payload : List (String × PyVal)) :
    Except PyErr StrategySpec :=
  let strategy_id := strTrim (pyStr (orElsePy (dictGetD trade_payload "strategy_id" .pnone)
    (.pstr "delta_rebalance_single")))
  match (registry_specs.find? (fun p => p.1 == strategy_id)).map (·.2) with
  | none => .error (.riskViolation "STRATEGY_POLICY" ("unknown strategy_id=" ++ strategy_id))
  | some spec =>
    let legs := extract_legs trade_payload
    if legs.isEmpty then
      .error (.riskViolation "STRATEGY_POLICY" "trade payload has no executable legs")
    else if spec.max_legs < legs.length then
      .error (.riskViolation "STRATEGY_POLICY"
        ("strategy " ++ strategy_id ++ " max_legs=" ++ toString spec.max_legs ++
          " got=" ++ toString legs.length))
    else
      match firstLegErr legs (fun leg =>
        if legSymbol trade_payload leg ∉ spec.allowed_symbols then
          .error (.riskViolation "STRATEGY_POLICY"
            ("symbol " ++ legSymbol trade_payload leg ++ " not allowed for " ++ strategy_id))
        else if legInstrument trade_payload leg ∉ spec.allowed_instruments then
          .error (.riskViolation "STRATEGY_POLICY"
            ("instrument " ++ legInstrument trade_payload leg ++ " not allowed for " ++
              strategy_id))
        else .ok ()) with
      | .error e => .error e
      | .ok _ =>
        if spec.require_defined_risk && !is_defined_risk legs then
          .error (.riskViolation "STRATEGY_POLICY"
            ("strategy " ++ strategy_id ++ " requires defined-risk structure"))
        else .ok spec

/-- `StrategyRegistry.validate_trade_payload_with_profile` (the profile is
the dict `_execute_trade` builds from the `StrategyProfile` row). -/
def validate_trade_payload_with_profile (trade_payload profile : List (String × PyVal))
    (client_tier : Option String) : Except PyErr StrategySpec :=
  let strategy_id := strTrim (pyStr (dictGetD profile "strategy_id" (.pstr "")))
  if strategy_id = "" then
    .error (.riskViolation "STRATEGY_POLICY" "strategy profile missing strategy_id")
  else
    let allowed_symbols := (pyListOf (dictGetD profile "allowed_symbols" (.plist []))).map
      (fun v => strUpper (pyStr v))
    let allowed_asset_classes := (pyListOf (dictGetD profile "allowed_asset_classes"
      (.plist []))).map (fun v => strLower (pyStr v))
    let tier_allowlist := (pyListOf (dictGetD profile "tier_allowlist" (.plist []))).map
      (fun v => strLower (pyStr v))
    match pyInt (dictGetD profile "max_legs" (.pint 1)) with
    | none => .error (.valError "could not convert max_legs to int")
    | some max_legs =>
      let require_defined_risk := (dictGetD profile "require_defined_risk" (.pbool false)).truthy
      let spec : StrategySpec :=
        { strategy_id := strategy_id
          name := pyStr (dictGetD profile "name" (.pstr strategy_id))
          max_legs := max_legs
          allowed_instruments := ["FOP", "FUT", "OPT", "OPTION"]
          allowed_symbols := if allowed_symbols = [] then ["ES", "NQ"] else allowed_symbols
          require_defined_risk := require_defined_risk }
      let legs := extract_legs trade_payload
      if legs.isEmpty then
        .error (.riskViolation "STRATEGY_POLICY" "trade payload has no executable legs")
      else if spec.max_legs < legs.length then
        .error (.riskViolation "STRATEGY_POLICY"
          ("strategy " ++ strategy_id ++ " max_legs=" ++ toString spec.max_legs ++
            " got=" ++ toString legs.length))
      else
        match firstLegErr legs (fun leg =>
          if legSymbol trade_payload leg ∉ spec.allowed_symbols then
            .error (.riskViolation "STRATEGY_POLICY"
              ("symbol " ++ legSymbol trade_payload leg ++ " not allowed for " ++ strategy_id))
          else if allowed_asset_classes ≠ [] ∧
              instrument_to_asset_class (legInstrument trade_payload leg) ∉
                allowed_asset_classes then
            .error (.riskViolation "STRATEGY_POLICY"
              ("asset class " ++ instrument_to_asset_class (legInstrument trade_payload leg) ++
                " not allowed for " ++ strategy_id))
          else .ok ()) with
        | .error e => .error e
        | .ok _ =>
          let tierBlocked : Bool :=
            match client_tier with
            | some ct => !tier_allowlist.isEmpty && ct != "" &&
                !tier_allowlist.contains (strLower ct)
            | none => false
          if tierBlocked then
            .error (.riskViolation "STRATEGY_POLICY"
              ("tier " ++ (client_tier.getD "") ++ " not allowed for " ++ strategy_id))
          else if spec.require_defined_risk && !is_defined_risk legs then
            .error (.riskViolation "STRATEGY_POLICY"
              ("strategy " ++ strategy_id ++ " requires defined-risk structure"))
          else .ok spec

-- ============================================================
-- Execution pipelines with effect traces
-- ============================================================

/-- `StrategyTemplateService._enforce_execution_controls`: no-op when no
controller is injected; otherwise read the halt store, and when halted emit
the `emergency_halt_blocked` audit event and raise. -/
def enforce_execution_controls (emergency_halt : Option Unit)
    (store : EmergencyHaltState) : Except PyErr Unit × List Effect :=
  match emergency_halt with
  | none => (.ok (), [])
  | some _ =>
    if !store.halted then (.ok (), [])
    else
      (.error (.valError "Trading is globally halted by emergency control"),
        [.auditEmit "emergency_halt_blocked"])

/-- A `Client` row (the columns the execution pipelines read). -/
structure ClientAccount where
  mode : String := "confirmation"
  tier : Option String := none
  risk_params : Option (List (String × PyVal)) := none
deriving Repr

/-- `StrategyTemplateService._enforce_risk`.  `day_pnls` are the P&Ls of
today's trades ordered newest first (the `limit(500)` query), `open_legs`
the position count. -/
def enforce_risk (nowSec : ℚ) (risk_params : Option (List (String × PyVal)))
    (day_pnls : List ℚ) (open_legs : Int) (t : StrategyTemplate)
    (resolved_contracts : Int) : Except PyErr Unit :=
  if !is_market_hours nowSec then
    .error (.valError "Order attempted outside configured market hours")
  else
    let rp := risk_params.getD []
    match pyFloat (dictGetD rp "max_loss" (.pfloat 5000)) with
    | none => .error (.valError "could not convert max_loss to float")
    | some max_daily_loss =>
      match pyInt (dictGetD rp "max_open_positions" (.pint 20)) with
      | none => .error (.valError "could not convert max_open_positions to int")
      | some max_open_positions =>
        match pyInt (dictGetD rp "max_size" (.pint 10)) with
        | none => .error (.valError "could not convert max_size to int")
        | some max_size =>
          let day_pnl := day_pnls.sum
          if day_pnl ≤ -(pyAbs max_daily_loss) then
            .error (.valError ("Daily loss limit breached: " ++ formatQ day_pnl ++
              " <= -" ++ formatQ max_daily_loss))
          else
            let consecutive_losses := day_pnls.take 3
            if 3 ≤ consecutive_losses.length ∧
                consecutive_losses.all (fun l => decide (l ≤ -500)) then
              .error (.valError "Circuit breaker active: 3 consecutive losses > $500")
            else if max_open_positions ≤ open_legs then
              .error (.valError ("Max open positions reached: " ++ toString open_legs ++
                "/" ++ toString max_open_positions))
            else if t.max_contracts < resolved_contracts then
              .error (.valError ("Resolved contracts " ++ toString resolved_contracts ++
                " exceed template max " ++ toString t.max_contracts))
            else if max_size < resolved_contracts then
              .error (.valError ("Resolved contracts " ++ toString resolved_contracts ++
                " exceed client max_size " ++ toString max_size))
            else .ok ()

/-- `build_trade_fill_from_order` returns a `TradeFill` row exactly when the
order payload carries a positive fill price (`fill_price <= 0` returns
`None`); only that is needed to model whether a `trade_fills` insert
occurs. -/
def build_trade_fill_some (order_payload : List (String × PyVal)) : Bool :=
  decide (0 < safe_float (dictGetD order_payload "fill_price" .pnone))

/-- The fields of the `StrategyExecution` row the caller observes. -/
structure StrategyExecutionOut where
  order_id : Option String
  status : String
  avg_fill_price : ℚ
deriving Repr, DecidableEq

/-- `StrategyTemplateService.execute_strategy_template` as a trace
function.  Inputs stand for the injected dependencies and database reads:
`emergency_halt`/`store` the halt dependency and shared halt store, `tmpl`
the template row (`None` when `get_template` raises), `chain` and
`underlying_price` the broker chain and pricing snapshots, `client` the
`Client` row, `nowSec`/`day_pnls`/`open_legs` the `_enforce_risk` reads,
`supports_combo` whether the broker has `submit_combo_order`, and
`combo_result` that call's payload.  Returns the outcome plus the ordered
audit/broker/database/stream effects. -/
def execute_strategy_template_run (emergency_halt : Option Unit)
    (store : EmergencyHaltState) (tmpl : Option StrategyTemplate)
    (chain : List ChainRow) (underlying_price : Option ℚ) (today : PDate)
    (client : Option ClientAccount) (nowSec : ℚ) (day_pnls : List ℚ)
    (open_legs : Int) (supports_combo : Bool)
    (combo_result : List (String × PyVal)) :
    Except PyErr StrategyExecutionOut × List Effect :=
  match enforce_execution_controls emergency_halt store with
  | (.error e, tr) => (.error e, tr)
  | (.ok _, tr0) =>
    match tmpl with
    | none => (.error (.valError "Strategy template not found"), tr0)
    | some t =>
      let tr1 := tr0 ++ [.brokerCall "get_options_chain"]
      match resolve_select t chain today with
      | .error e => (.error (.valError e), tr1)
      | .ok sel =>
        let tr2 := tr1 ++ [.brokerCall "get_market_data"]
        match resolve_finish t sel (underlying_price.getD 0) with
        | .error e => (.error (.valError e), tr2)
        | .ok nums =>
          let resolved := nums_to_resolved t nums
          match client with
          | none => (.error (.valError "Client not found"), tr2)
          | some c =>
            match enforce_risk nowSec c.risk_params day_pnls open_legs t
                resolved.contracts with
            | .error e => (.error e, tr2)
            | .ok _ =>
              if !supports_combo then
                (.error (.brokerOrder "Broker does not support combo BAG orders"), tr2)
              else
                let tr3 := tr2 ++ [.brokerCall "submit_combo_order"]
                let order_id_raw := dictGetD combo_result "order_id" .pnone
                let order_id := if order_id_raw.truthy then some (pyStr order_id_raw)
                  else none
                let status := pyStr (dictGetD combo_result "status" (.pstr "submitted"))
                let avg_fill_price := safe_float (dictGetD combo_result "fill_price" .pnone)
                let tr4 := tr3 ++ [.dbWrite "strategy_executions"]
                let tr5 := tr4 ++ [.dbWrite "trades"]
                let tr6 := tr5 ++ (if build_trade_fill_some combo_result then
                  [.dbWrite "trade_fills"] else [])
                let tr7 := tr6 ++ [.auditEmit "strategy_template_executed"]
                (.ok { order_id := order_id
                       status := status
                       avg_fill_price := avg_fill_price }, tr7)

/-- `AgentCore._execute_trade` after the emergency-halt gate (lines
205-301 of `backend/agent/core.py`) as a trace function.  Inputs stand for
the injected dependencies and reads: `net_delta`/`position_qtys` the
portfolio snapshot (`net_greeks.delta` and the position quantities),
`profile` the active `StrategyProfile` row as the dict the code builds from
it, `client` the `Client` row, `market` the market-data payload,
`recent_pnls` the recent trades' P&Ls, `streak`/`nowSec` the governor state
and clock, and `submit_result` the broker's `submit_order` payload.  The
redis cache write of the portfolio snapshot (`_cache_portfolio_state`)
emits no modelled effect. -/
def execute_trade_core (client_id : String) (trade_payload : List (String × PyVal))
    (params : RiskParameters) (net_delta : ℚ) (position_qtys : List Int)
    (profile : Option (List (String × PyVal))) (client : Option ClientAccount)
    (market : List (String × PyVal)) (recent_pnls : List ℚ) (streak : GovernorState)
    (nowSec : ℚ) (submit_result : List (String × PyVal)) :
    Except PyErr (List (String × PyVal)) × List Effect :=
  let tr1 : List Effect := [.brokerCall "get_portfolio_greeks"]
  match dictGet trade_payload "symbol" with
  | none => (.error (.keyError "symbol"), tr1)
  | some _ =>
    let tr2 := tr1 ++ [.brokerCall "get_market_data"]
    match pyFloat (dictGetD trade_payload "delta_estimate" (.pfloat (1/2))) with
    | none => (.error (.valError "could not convert delta_estimate to float"), tr2)
    | some order_delta_est =>
      match dictGet trade_payload "action" with
      | none => (.error (.keyError "action"), tr2)
      | some actionV =>
        let direction : Int := if strUpper (pyStr actionV) == "BUY" then 1 else -1
        match dictGet trade_payload "qty" with
        | none => (.error (.keyError "qty"), tr2)
        | some qtyV =>
          match pyInt qtyV with
          | none => (.error (.valError "could not convert qty to int"), tr2)
          | some qty =>
            let projected_delta := net_delta + (direction : ℚ) * (qty : ℚ) * order_delta_est
            let daily_pnl := recent_pnls.sum
            let open_legs : Int := (position_qtys.map (fun q => (q.natAbs : Int))).sum
            let bid := (pyFloat (dictGetD market "bid" (.pint 0))).getD 0
            let ask := (pyFloat (dictGetD market "ask" (.pint 0))).getD 0
            let registry_result :=
              match profile with
              | some prof => validate_trade_payload_with_profile trade_payload prof
                  (match client with | some c => c.tier | none => none)
              | none => validate_trade_payload trade_payload
            match registry_result with
            | .error e =>
              (match e with
               | .riskViolation r m =>
                 (.error (.riskViolation r m), tr2 ++ [.auditEmit "risk_violation"])
               | _ => (.error e, tr2))
            | .ok _ =>
              match validate_order client_id trade_payload net_delta (some projected_delta)
                  daily_pnl open_legs bid ask params streak nowSec with
              | .error e =>
                (match e with
                 | .riskViolation r m =>
                   (.error (.riskViolation r m), tr2 ++ [.auditEmit "risk_violation"])
                 | _ => (.error e, tr2))
              | .ok _ =>
                let tr3 := tr2 ++ [.brokerCall "submit_order"]
                match dictGet submit_result "order_id" with
                | none => (.error (.keyError "order_id"), tr3)
                | some _ =>
                  let tr4 := tr3 ++ [.dbWrite "trades"]
                  let tr5 := tr4 ++ [.auditEmit "order_executed"]
                  let tr6 := tr5 ++ [.streamEvent "order_executed"]
                  (.ok submit_result, tr6)

/-- `AgentCore._execute_trade` (lines 189-301): the emergency-halt gate
(`if self.emergency_halt is not None: ... if state.halted: audit; raise`)
in front of the rest of the pipeline. -/
def execute_trade_run (emergency_halt : Option Unit) (store : EmergencyHaltState)
    (client_id : String) (trade_payload : List (String × PyVal))
    (params : RiskParameters) (net_delta : ℚ) (position_qtys : List Int)
    (profile : Option (List (String × PyVal))) (client : Option ClientAccount)
    (market : List (String × PyVal)) (recent_pnls : List ℚ) (streak : GovernorState)
    (nowSec : ℚ) (submit_result : List (String × PyVal)) :
    Except PyErr (List (String × PyVal)) × List Effect :=
  match emergency_halt with
  | some _ =>
    if store.halted then
      (.error (.valError "Trading is globally halted by emergency control"),
        [.auditEmit "emergency_halt_blocked"])
    else
      execute_trade_core client_id trade_payload params net_delta position_qtys profile
        client market recent_pnls streak nowSec submit_result
  | none =>
    execute_trade_core client_id trade_payload params net_delta position_qtys profile
      client market recent_pnls streak nowSec submit_result

/-- C1: whenever the injected emergency-halt dependency reads a halted
state, both ExecuteStrategyTemplate and ExecuteTrade abort immediately
with the halt ValueError, their entire effect trace is the single
`emergency_halt_blocked` audit event, and in particular no broker call and
no database write of any kind happens — no later pipeline step runs. -/
theorem halt_gate_blocks_both_pipelines (store : EmergencyHaltState)
    (tmpl : Option StrategyTemplate) (chain : List ChainRow)
    (underlying_price : Option ℚ) (today : PDate) (client : Option ClientAccount)
    (nowSec : ℚ) (day_pnls : List ℚ) (open_legs : Int) (supports_combo : Bool)
    (combo_result : List (String × PyVal)) (client_id : String)
    (trade_payload : List (String × PyVal)) (params : RiskParameters) (net_delta : ℚ)
    (position_qtys : List Int) (profile : Option (List (String × PyVal)))
    (client2 : Option ClientAccount) (market : List (String × PyVal))
    (recent_pnls : List ℚ) (streak : GovernorState) (nowSec2 : ℚ)
    (submit_result : List (String × PyVal)) (h : store.halted = true) :
    execute_strategy_template_run (some ()) store tmpl chain underlying_price today
        client nowSec day_pnls open_legs supports_combo combo_result =
      (.error (.valError "Trading is globally halted by emergency control"),
        [.auditEmit "emergency_halt_blocked"]) ∧
    execute_trade_run (some ()) store client_id trade_payload params net_delta
        position_qtys profile client2 market recent_pnls streak nowSec2 submit_result =
      (.error (.valError "Trading is globally halted by emergency control"),
        [.auditEmit "emergency_halt_blocked"]) ∧
    (∀ m, Effect.brokerCall m ∉
        (execute_strategy_template_run (some ()) store tmpl chain underlying_price today
          client nowSec day_pnls open_legs supports_combo combo_result).2 ∧
      Effect.brokerCall m ∉
        (execute_trade_run (some ()) store client_id trade_payload params net_delta
          position_qtys profile client2 market recent_pnls streak nowSec2
          submit_result).2) ∧
    (∀ tb, Effect.dbWrite tb ∉
        (execute_strategy_template_run (some ()) store tmpl chain underlying_price today
          client nowSec day_pnls open_legs supports_combo combo_result).2 ∧
      Effect.dbWrite tb ∉
        (execute_trade_run (some ()) store client_id trade_payload params net_delta
          position_qtys profile client2 market recent_pnls streak nowSec2
          submit_result).2) := by
  have h1 : execute_strategy_template_run (some ()) store tmpl chain underlying_price
      today client nowSec day_pnls open_legs supports_combo combo_result =
      (.error (.valError "Trading is globally halted by emergency control"),
        [.auditEmit "emergency_halt_blocked"]) := by
    simp [execute_strategy_template_run, enforce_execution_controls, h]
  have h2 : execute_trade_run (some ()) store client_id trade_payload params net_delta
      position_qtys profile client2 market recent_pnls streak nowSec2 submit_result =
      (.error (.valError "Trading is globally halted by emergency control"),
        [.auditEmit "emergency_halt_blocked"]) := by
    simp [execute_trade_run, h]
  refine ⟨h1, h2, fun m => ⟨?_, ?_⟩, fun tb => ⟨?_, ?_⟩⟩ <;>
    first
    | (rw [h1]; simp)
    | (rw [h2]; simp)

theorem halt_gate_blocks_both_pipelines_witness :
    execute_strategy_template_run (some ()) ⟨true, "maintenance"⟩ none [] none
        ⟨2026, 1, 1⟩ none 0 [] 0 true [] =
      (.error (.valError "Trading is globally halted by emergency control"),
        [.auditEmit "emergency_halt_blocked"]) ∧
    execute_trade_run (some ()) ⟨true, "maintenance"⟩ "c1" [] {} 0 [] none none [] []
        [] 0 [] =
      (.error (.valError "Trading is globally halted by emergency control"),
        [.auditEmit "emergency_halt_blocked"]) ∧
    (∀ m, Effect.brokerCall m ∉
        (execute_strategy_template_run (some ()) ⟨true, "maintenance"⟩ none [] none
          ⟨2026, 1, 1⟩ none 0 [] 0 true []).2 ∧
      Effect.brokerCall m ∉
        (execute_trade_run (some ()) ⟨true, "maintenance"⟩ "c1" [] {} 0 [] none none []
          [] [] 0 []).2) ∧
    (∀ tb, Effect.dbWrite tb ∉
        (execute_strategy_template_run (some ()) ⟨true, "maintenance"⟩ none [] none
          ⟨2026, 1, 1⟩ none 0 [] 0 true []).2 ∧
      Effect.dbWrite tb ∉
        (execute_trade_run (some ()) ⟨true, "maintenance"⟩ "c1" [] {} 0 [] none none []
          [] [] 0 []).2) :=
  halt_gate_blocks_both_pipelines ⟨true, "maintenance"⟩ none [] none ⟨2026, 1, 1⟩ none
    0 [] 0 true [] "c1" [] {} 0 [] none none [] [] [] 0 [] rfl

/-- Without an injected controller, the template pipeline never emits the
halt audit event, whatever happens. -/
theorem tpl_run_no_halt_audit (store : EmergencyHaltState)
    (tmpl : Option StrategyTemplate) (chain : List ChainRow)
    (underlying_price : Option ℚ) (today : PDate) (client : Option ClientAccount)
    (nowSec : ℚ) (day_pnls : List ℚ) (open_legs : Int) (supports_combo : Bool)
    (combo_result : List (String × PyVal)) :
    Effect.auditEmit "emergency_halt_blocked" ∉
      (execute_strategy_template_run none store tmpl chain underlying_price today
        client nowSec day_pnls open_legs supports_combo combo_result).2 := by
  simp only [execute_strategy_template_run, enforce_execution_controls]
  repeat' split
  all_goals simp

/-- The gate-less trade pipeline never emits the halt audit event. -/
theorem trade_core_no_halt_audit (client_id : String)
    (trade_payload : List (String × PyVal)) (params : RiskParameters) (net_delta : ℚ)
    (position_qtys : List Int) (profile : Option (List (String × PyVal)))
    (client : Option ClientAccount) (market : List (String × PyVal))
    (recent_pnls : List ℚ) (streak : GovernorState) (nowSec : ℚ)
    (submit_result : List (String × PyVal)) :
    Effect.auditEmit "emergency_halt_blocked" ∉
      (execute_trade_core client_id trade_payload params net_delta position_qtys
        profile client market recent_pnls streak nowSec submit_result).2 := by
  simp only [execute_trade_core]
  repeat' split
  all_goals simp

def haltedStore : EmergencyHaltState := { halted := true, reason := "maintenance" }

def comboC10 : List (String × PyVal) := [("order_id", .pstr "C-1")]

/-- The template pipeline with no controller and a halted shared store
still runs end to end (the C7 chain resolves and sizing passes the default
risk limits). -/
theorem tpl_run_C10_eval :
    execute_strategy_template_run none haltedStore (some tmplC7) chainC7 (some 100)
      ⟨2026, 1, 1⟩ (some {}) 0 [] 0 true comboC10 =
    (.ok { order_id := some "C-1", status := "submitted", avg_fill_price := 0 },
      [.brokerCall "get_options_chain", .brokerCall "get_market_data",
       .brokerCall "submit_combo_order", .dbWrite "strategy_executions",
       .dbWrite "trades", .auditEmit "strategy_template_executed"]) := by
  simp only [execute_strategy_template_run, enforce_execution_controls, Option.getD,
    resolve_select_C7_eval, resolve_finish_C7_eval]
  decide

def payloadC10 : List (String × PyVal) :=
  [("symbol", .pstr "ES"), ("action", .pstr "BUY"), ("qty", .pint 1),
   ("delta_estimate", .pfloat (1/10))]

def marketC10 : List (String × PyVal) := [("bid", .pfloat 100), ("ask", .pfloat 100)]

def submitC10 : List (String × PyVal) := [("order_id", .pstr "O-1")]

/-- The trade pipeline with no controller and a halted shared store still
runs end to end: registry and governor validation pass and the order is
submitted. -/
theorem trade_run_C10_eval :
    execute_trade_run none haltedStore "c1" payloadC10 {} 0 [] none none marketC10
      [] [] 0 submitC10 =
    (.ok submitC10,
      [.brokerCall "get_portfolio_greeks", .brokerCall "get_market_data",
       .brokerCall "submit_order", .dbWrite "trades", .auditEmit "order_executed",
       .streamEvent "order_executed"]) := by
  have hreg : validate_trade_payload payloadC10 =
      .ok { strategy_id := "delta_rebalance_single"
            name := "Single-leg delta rebalance"
            max_legs := 1
            allowed_instruments := ["FOP", "FUT"]
            allowed_symbols := ["ES", "NQ", "SI", "GC", "CL"]
            require_defined_risk := false } := by decide
  have hv : validate_order "c1" payloadC10 0
      (some (0 + ((1 : Int) : ℚ) * ((1 : Int) : ℚ) * (1 / 10))) 0 0 100 100 {} [] 0 =
      .ok () := by
    norm_num [validate_order, validate_order_rest, pyAbs, is_market_hours,
      spread_rel, govGet]
    decide
  have hsym : dictGet payloadC10 "symbol" = some (.pstr "ES") := rfl
  have hde : pyFloat (dictGetD payloadC10 "delta_estimate" (.pfloat (1 / 2))) =
      some (1 / 10) := rfl
  have hact : dictGet payloadC10 "action" = some (.pstr "BUY") := rfl
  have hqty : dictGet payloadC10 "qty" = some (.pint 1) := rfl
  have hdir : (if strUpper (pyStr (.pstr "BUY")) == "BUY" then (1 : Int) else -1) = 1 :=
    by decide
  have hbid : (pyFloat (dictGetD marketC10 "bid" (.pint 0))).getD 0 = (100 : ℚ) := rfl
  have hask : (pyFloat (dictGetD marketC10 "ask" (.pint 0))).getD 0 = (100 : ℚ) := rfl
  have hoid : dictGet submitC10 "order_id" = some (.pstr "O-1") := rfl
  simp only [execute_trade_run, execute_trade_core, hsym, hde, hact, hqty, pyInt,
    hdir, List.map_nil, List.sum_nil, hbid, hask, hreg, hoid, hv]
  rfl

/-- C10: when the emergency_halt dependency is None, neither pipeline
performs any halt check: the run is identical for every shared-store halt
state (ExecuteTrade literally reduces to the gate-less pipeline), the
`emergency_halt_blocked` audit event is never emitted, and concrete runs
with the store halted still proceed through policy validation to broker
submission (`submit_combo_order` / `submit_order`) and succeed. -/
theorem no_halt_check_without_controller (store store' : EmergencyHaltState)
    (tmpl : Option StrategyTemplate) (chain : List ChainRow)
    (underlying_price : Option ℚ) (today : PDate) (client : Option ClientAccount)
    (nowSec : ℚ) (day_pnls : List ℚ) (open_legs : Int) (supports_combo : Bool)
    (combo_result : List (String × PyVal)) (client_id : String)
    (trade_payload : List (String × PyVal)) (params : RiskParameters) (net_delta : ℚ)
    (position_qtys : List Int) (profile : Option (List (String × PyVal)))
    (client2 : Option ClientAccount) (market : List (String × PyVal))
    (recent_pnls : List ℚ) (streak : GovernorState) (nowSec2 : ℚ)
    (submit_result : List (String × PyVal)) :
    execute_strategy_template_run none store tmpl chain underlying_price today client
        nowSec day_pnls open_legs supports_combo combo_result =
      execute_strategy_template_run none store' tmpl chain underlying_price today
        client nowSec day_pnls open_legs supports_combo combo_result ∧
    execute_trade_run none store client_id trade_payload params net_delta
        position_qtys profile client2 market recent_pnls streak nowSec2 submit_result =
      execute_trade_core client_id trade_payload params net_delta position_qtys
        profile client2 market recent_pnls streak nowSec2 submit_result ∧
    Effect.auditEmit "emergency_halt_blocked" ∉
      (execute_strategy_template_run none store tmpl chain underlying_price today
        client nowSec day_pnls open_legs supports_combo combo_result).2 ∧
    Effect.auditEmit "emergency_halt_blocked" ∉
      (execute_trade_run none store client_id trade_payload params net_delta
        position_qtys profile client2 market recent_pnls streak nowSec2
        submit_result).2 ∧
    haltedStore.halted = true ∧
    (execute_strategy_template_run none haltedStore (some tmplC7) chainC7 (some 100)
        ⟨2026, 1, 1⟩ (some {}) 0 [] 0 true comboC10).1 =
      .ok { order_id := some "C-1", status := "submitted", avg_fill_price := 0 } ∧
    Effect.brokerCall "submit_combo_order" ∈
      (execute_strategy_template_run none haltedStore (some tmplC7) chainC7 (some 100)
        ⟨2026, 1, 1⟩ (some {}) 0 [] 0 true comboC10).2 ∧
    (execute_trade_run none haltedStore "c1" payloadC10 {} 0 [] none none marketC10
        [] [] 0 submitC10).1 = .ok submitC10 ∧
    Effect.brokerCall "submit_order" ∈
      (execute_trade_run none haltedStore "c1" payloadC10 {} 0 [] none none marketC10
        [] [] 0 submitC10).2 := by
  refine ⟨rfl, rfl,
    tpl_run_no_halt_audit store tmpl chain underlying_price today client nowSec
      day_pnls open_legs supports_combo combo_result,
    ?_, rfl, ?_, ?_, ?_, ?_⟩
  · show Effect.auditEmit "emergency_halt_blocked" ∉
      (execute_trade_core client_id trade_payload params net_delta position_qtys
        profile client2 market recent_pnls streak nowSec2 submit_result).2
    exact trade_core_no_halt_audit client_id trade_payload params net_delta
      position_qtys profile client2 market recent_pnls streak nowSec2 submit_result
  · rw [tpl_run_C10_eval]
  · rw [tpl_run_C10_eval]
    simp
  · rw [trade_run_C10_eval]
  · rw [trade_run_C10_eval]
    simp
